import Mathlib

/-!
Break physics: `Body` (Body2D.cpp) and `ChainShape` (ChainShape.cpp)

A shallow embedding of `src/Physics/src/Body2D.cpp`.

* `real32` values are modelled by exact rationals `ℚ` (no rounding, no
  overflow, no underflow, no NaN/Inf, and `1 / 0 = 0` where the code has
  `+inf`).  The properties under `Claims` are read off the values the code
  assigns, tests and copies; none of them is an identity of exact arithmetic
  that binary32 lacks, apart from the one on fixture order, which is about
  exact arithmetic by its own wording.
* Assertions are compiled out (release semantics): every operation is a total
  function on the state.  Where an assertion matters it is stated as a
  separate predicate.
* Pointers are modelled by addresses (`Nat`); intrusive singly linked lists
  (`m_fixtureList`, `m_jointList`, `m_contactList`) by `List`s in link order.
* `m_flags` is modelled by the record of its flag bits: the code only ever
  sets, clears or tests one named flag at a time.
* `m_world` points to the owning world; the pointee is carried inside the body
  state, so an operation that writes through `m_world` is still a function
  `Body → Body`.
-/

namespace Break

/-! ## Math helpers (glm::vec2, MathUtils, Rotation2D, Transform2D, Sweep) -/

/-- The type glm::vec2 over exact arithmetic. -/
@[ext] structure Vec2 where
  x : ℚ
  y : ℚ
deriving DecidableEq

namespace Vec2

instance : Add Vec2 := ⟨fun a b => ⟨a.x + b.x, a.y + b.y⟩⟩
instance : Sub Vec2 := ⟨fun a b => ⟨a.x - b.x, a.y - b.y⟩⟩
instance : HMul ℚ Vec2 Vec2 := ⟨fun s v => ⟨s * v.x, s * v.y⟩⟩
instance : HMul Vec2 ℚ Vec2 := ⟨fun v s => ⟨v.x * s, v.y * s⟩⟩
instance : Zero Vec2 := ⟨⟨0, 0⟩⟩

end Vec2

/-- The function glm::dot on vec2. -/
def dot (a b : Vec2) : ℚ := a.x * b.x + a.y * b.y

/-- Modelled from the spec: `MathUtils::Cross2(real32, vec2)` is declared in a
header that is not part of the sources; the spec uses it as
`cross(angularVelocity, newCenter - oldCenter)`, the 2D cross product of a
scalar (an angular velocity about the z axis) and a vector. -/
def Cross2 (s : ℚ) (v : Vec2) : Vec2 := ⟨-s * v.y, s * v.x⟩

/-- Modelled from the spec: `MathUtils::Cross2(vec2, vec2)` is declared in a
header that is not part of the sources; the 2D cross product of two vectors,
used as `cross(point - worldCenter, force)`. -/
def Cross2v (a b : Vec2) : ℚ := a.x * b.y - a.y * b.x

/-- Rotation2D: sine and cosine of an angle. -/
@[ext] structure Rotation2D where
  s : ℚ
  c : ℚ
deriving DecidableEq

/-- Transform2D: a position `p` and a rotation `q`. -/
@[ext] structure Transform2D where
  p : Vec2
  q : Rotation2D
deriving DecidableEq

/-- Modelled from the spec: `Rotation2D::Mul(q, v)` is declared in
Rotation2D.hpp, which is not part of the sources; it rotates the vector `v`
by `q` (the spec's `Rotate(xf.q, v)`). -/
def Rotation2D.Mul (q : Rotation2D) (v : Vec2) : Vec2 :=
  ⟨q.c * v.x - q.s * v.y, q.s * v.x + q.c * v.y⟩

/-- Modelled from the spec: `Transform2D::Mul(xf, v)` is declared in
Transform2D.hpp, which is not part of the sources; the spec describes it as
the body transform applied to a local point, `xf.p + Rotate(xf.q, v)`. -/
def Transform2D.Mul (T : Transform2D) (v : Vec2) : Vec2 :=
  ⟨(T.q.c * v.x - T.q.s * v.y) + T.p.x, (T.q.s * v.x + T.q.c * v.y) + T.p.y⟩

/-- Sweep: the interpolation state of a body. -/
@[ext] structure Sweep where
  localCenter : Vec2
  c0 : Vec2
  c : Vec2
  a0 : ℚ
  a : ℚ
  alpha0 : ℚ
deriving DecidableEq

/-- MassData: what a shape reports and what `SetMassData` takes. -/
@[ext] structure MassData where
  mass : ℚ
  center : Vec2
  I : ℚ
deriving DecidableEq

/-- The library functions the body code calls and that cannot be computed
over `ℚ`: `sinf` and `cosf`, used by `Rotation2D::Set`. -/
structure Trig where
  sinf : ℚ → ℚ
  cosf : ℚ → ℚ

/-- `Rotation2D::Set(angle)`: `s = sinf(angle)`, `c = cosf(angle)`. -/
def Rotation2D.Set (tr : Trig) (angle : ℚ) : Rotation2D :=
  ⟨tr.sinf angle, tr.cosf angle⟩

/-! ## Data model -/

/-- BodyType, with the order of the enum. -/
inductive BodyType where
  | staticBody
  | kinematicBody
  | dynamicBody
deriving DecidableEq, Repr

export BodyType (staticBody kinematicBody dynamicBody)

/-- The bits of `Body::m_flags`. -/
@[ext] structure BodyFlags where
  islandFlag : Bool
  awakeFlag : Bool
  autoSleepFlag : Bool
  bulletFlag : Bool
  fixedRotationFlag : Bool
  activeFlag : Bool
  toiFlag : Bool
deriving DecidableEq

/-- Modelled from the spec: the `Shape` interface is declared in headers that
are not part of the sources; the body code consumes
`ComputeMass(density) -> MassData{mass, center, I}` and `GetChildCount`. -/
structure Shape where
  ComputeMass : ℚ → MassData
  GetChildCount : Nat

/-- A fixture as the body code sees it: its address, its density, its shape
and the broad-phase proxies it owns (`m_proxyCount` is the length). -/
structure Fixture where
  addr : Nat
  m_density : ℚ
  m_shape : Shape
  m_proxies : List Nat

/-- Modelled from the spec: `Fixture::GetMassData` is declared in Fixture.hpp,
which is not part of the sources; it asks the shape for
`ComputeMass(density)`. -/
def Fixture.GetMassData (f : Fixture) : MassData := f.m_shape.ComputeMass f.m_density

/-- FixtureDef: the fields the body code reads or writes. -/
structure FixtureDef where
  shape : Shape
  density : ℚ

/-- Joint: the one field the body code reads. -/
structure Joint where
  m_collideConnected : Bool
deriving DecidableEq

/-- JointEdge: `other` is the address of the body at the other end. -/
structure JointEdge where
  other : Nat
  joint : Joint
deriving DecidableEq

/-- Contact: its address and the addresses of its two fixtures. -/
structure Contact where
  addr : Nat
  m_fixtureA : Nat
  m_fixtureB : Nat
deriving DecidableEq

/-- ContactEdge: `other` is the address of the other body. -/
structure ContactEdge where
  other : Nat
  contact : Contact
deriving DecidableEq

/-- BroadPhase: the live proxies and the move buffer (the proxies marked for
pair re-evaluation). -/
structure BroadPhase where
  m_proxies : List Nat
  m_moveBuffer : List Nat
deriving DecidableEq

/-- ContactManager: the broad phase and the world's contact list. -/
structure ContactManager where
  m_broadPhase : BroadPhase
  m_contactList : List Contact
deriving DecidableEq

/-- The bits of `World::m_flags` the body code uses. -/
structure WorldFlags where
  newFixture : Bool
  locked : Bool
deriving DecidableEq

/-- World: the part of the owning world the body code reads or writes. -/
structure World where
  m_flags : WorldFlags
  m_contactManager : ContactManager
deriving DecidableEq

/-- `World::IsLocked`. -/
def World.IsLocked (w : World) : Bool := w.m_flags.locked

/-- BodyDef: the fields the constructor reads. -/
structure BodyDef where
  type : BodyType
  position : Vec2
  angle : ℚ
  linearVelocity : Vec2
  angularVelocity : ℚ
  linearDamping : ℚ
  angularDamping : ℚ
  allowSleep : Bool
  awake : Bool
  fixedRotation : Bool
  bullet : Bool
  active : Bool
  userData : Nat
  gravityScale : ℚ

/-- The state of a `Body`. -/
structure Body where
  m_type : BodyType
  m_flags : BodyFlags
  m_xf : Transform2D
  m_sweep : Sweep
  m_linearVelocity : Vec2
  m_angularVelocity : ℚ
  m_force : Vec2
  m_torque : ℚ
  m_world : World
  m_prev : Option Nat
  m_next : Option Nat
  m_fixtureList : List Fixture
  m_fixtureCount : Int
  m_jointList : List JointEdge
  m_contactList : List ContactEdge
  m_mass : ℚ
  m_invMass : ℚ
  m_I : ℚ
  m_invI : ℚ
  m_linearDamping : ℚ
  m_angularDamping : ℚ
  m_gravityScale : ℚ
  m_sleepTime : ℚ
  m_userData : Nat

/-- Collaborators of the body code whose effect on the broad phase depends on
shape geometry (Fixture.hpp, BroadPhase.hpp: not part of the sources), taken
as parameters.  `CreateProxies` returns the ids of the proxies it created. -/
structure Collab where
  trig : Trig
  CreateProxies : BroadPhase → Shape → Transform2D → List Nat × BroadPhase
  DestroyProxies : BroadPhase → List Nat → BroadPhase
  Synchronize : BroadPhase → Fixture → Transform2D → Transform2D → BroadPhase

/-! ## Body2D.cpp -/

/-- The assertions at the head of the constructor (lines 17-22); over `ℚ`
every value is finite, so `IsValid` and `IsVal` hold and only the sign
conditions remain. -/
def BodyDef.valid (bd : BodyDef) : Prop :=
  bd.angularDamping ≥ 0 ∧ bd.linearDamping ≥ 0

instance (bd : BodyDef) : Decidable bd.valid := by
  unfold BodyDef.valid; infer_instance

/-- `Body::Body(const BodyDef* bd, World* world)`, lines 15-96. -/
def Body.ctor (tr : Trig) (bd : BodyDef) (world : World) : Body :=
  { m_flags :=
      { islandFlag := false
        bulletFlag := bd.bullet
        fixedRotationFlag := bd.fixedRotation
        autoSleepFlag := bd.allowSleep
        awakeFlag := bd.awake
        activeFlag := bd.active
        toiFlag := false }
    m_world := world
    m_xf := { p := bd.position, q := Rotation2D.Set tr bd.angle }
    m_sweep :=
      { localCenter := ⟨0, 0⟩
        c0 := bd.position
        c := bd.position
        a0 := bd.angle
        a := bd.angle
        alpha0 := 0 }
    m_jointList := []
    m_contactList := []
    m_prev := none
    m_next := none
    m_linearVelocity := bd.linearVelocity
    m_angularVelocity := bd.angularVelocity
    m_linearDamping := bd.linearDamping
    m_angularDamping := bd.angularDamping
    m_gravityScale := bd.gravityScale
    m_force := ⟨0, 0⟩
    m_torque := 0
    m_sleepTime := 0
    m_type := bd.type
    m_mass := if bd.type = dynamicBody then 1 else 0
    m_invMass := if bd.type = dynamicBody then 1 else 0
    m_I := 0
    m_invI := 0
    m_userData := bd.userData
    m_fixtureList := []
    m_fixtureCount := 0 }

/-- The fixture loop of `ResetMassData`, lines 293-305: `b` carries `m_mass`
and `m_I`, the second component is the local variable `localCenter`. -/
def accumulateMass : List Fixture → Body × Vec2 → Body × Vec2
  | [], st => st
  | f :: fs, (b, localCenter) =>
    if f.m_density = 0 then
      accumulateMass fs (b, localCenter)
    else
      let massData := f.GetMassData
      accumulateMass fs
        ({ b with m_mass := b.m_mass + massData.mass, m_I := b.m_I + massData.I },
          localCenter + massData.mass * massData.center)

/-- `Body::ResetMassData`, lines 271-341. -/
def Body.ResetMassData (b : Body) : Body :=
  let b := { b with
    m_mass := 0, m_invMass := 0, m_I := 0, m_invI := 0,
    m_sweep := { b.m_sweep with localCenter := ⟨0, 0⟩ } }
  if b.m_type = staticBody ∨ b.m_type = kinematicBody then
    { b with m_sweep := { b.m_sweep with c0 := b.m_xf.p, c := b.m_xf.p, a0 := b.m_sweep.a } }
  else
    let st := accumulateMass b.m_fixtureList (b, ⟨0, 0⟩)
    let b := st.1
    let localCenter := st.2
    -- Compute center of mass.
    let st : Body × Vec2 :=
      if b.m_mass > 0 then
        let b := { b with m_invMass := 1 / b.m_mass }
        (b, localCenter * b.m_invMass)
      else
        ({ b with m_mass := 1, m_invMass := 1 }, localCenter)
    let b := st.1
    let localCenter := st.2
    let b :=
      if b.m_I > 0 ∧ b.m_flags.fixedRotationFlag = false then
        let b := { b with m_I := b.m_I - b.m_mass * dot localCenter localCenter }
        { b with m_invI := 1 / b.m_I }
      else
        { b with m_I := 0, m_invI := 0 }
    -- Move center of mass.
    let oldCenter := b.m_sweep.c
    let b := { b with m_sweep := { b.m_sweep with localCenter := localCenter } }
    let c := Transform2D.Mul b.m_xf b.m_sweep.localCenter
    let b := { b with m_sweep := { b.m_sweep with c0 := c, c := c } }
    -- Update center of mass velocity.
    { b with m_linearVelocity :=
        b.m_linearVelocity + Cross2 b.m_angularVelocity (b.m_sweep.c - oldCenter) }

/-- `Body::SetMassData`, lines 343-382. -/
def Body.SetMassData (b : Body) (massData : MassData) : Body :=
  if b.m_world.IsLocked = true then b
  else if b.m_type ≠ dynamicBody then b
  else
    let b := { b with m_invMass := 0, m_I := 0, m_invI := 0 }
    let b := { b with m_mass := massData.mass }
    let b := if b.m_mass ≤ 0 then { b with m_mass := 1 } else b
    let b := { b with m_invMass := 1 / b.m_mass }
    let b :=
      if massData.I > 0 ∧ b.m_flags.fixedRotationFlag = false then
        let b := { b with m_I := massData.I - b.m_mass * dot massData.center massData.center }
        { b with m_invI := 1 / b.m_I }
      else b
    -- Move center of mass.
    let oldCenter := b.m_sweep.c
    let b := { b with m_sweep := { b.m_sweep with localCenter := massData.center } }
    let c := Transform2D.Mul b.m_xf b.m_sweep.localCenter
    let b := { b with m_sweep := { b.m_sweep with c0 := c, c := c } }
    -- Update center of mass velocity.
    { b with m_linearVelocity :=
        b.m_linearVelocity + Cross2 b.m_angularVelocity (b.m_sweep.c - oldCenter) }

/-- Modelled from the spec: `ContactManager::Destroy` is not part of the
sources; the spec says it unlinks the contact from both bodies' contact-edge
lists and releases the contact.  On this body's state: the contact leaves the
world's contact list and its edge leaves `m_contactList`. -/
def ContactManager_Destroy (b : Body) (c : Contact) : Body :=
  { b with
    m_contactList := b.m_contactList.filter (fun e => e.contact.addr ≠ c.addr)
    m_world := { b.m_world with
      m_contactManager := { b.m_world.m_contactManager with
        m_contactList :=
          b.m_world.m_contactManager.m_contactList.filter (fun k => k.addr ≠ c.addr) } } }

/-- Modelled from the spec: `BroadPhase::TouchProxy` is not part of the
sources; the spec says it marks a proxy for forced re-pairing: the proxy is
put in the move buffer. -/
def BroadPhase.TouchProxy (bp : BroadPhase) (proxyId : Nat) : BroadPhase :=
  { bp with m_moveBuffer := bp.m_moveBuffer ++ [proxyId] }

/-- Write through `&m_world->m_contactManager.m_broadPhase`. -/
def Body.withBroadPhase (b : Body) (bp : BroadPhase) : Body :=
  { b with m_world := { b.m_world with
      m_contactManager := { b.m_world.m_contactManager with m_broadPhase := bp } } }

/-- Read `m_world->m_contactManager.m_broadPhase`. -/
def Body.broadPhase (b : Body) : BroadPhase := b.m_world.m_contactManager.m_broadPhase

/-- `Body::SetAwake`, lines 706-725. -/
def Body.SetAwake (b : Body) (flag : Bool) : Body :=
  if flag then
    if b.m_flags.awakeFlag = false then
      { b with m_flags := { b.m_flags with awakeFlag := true }, m_sleepTime := 0 }
    else b
  else
    { b with
      m_flags := { b.m_flags with awakeFlag := false }
      m_sleepTime := 0
      m_linearVelocity := ⟨0, 0⟩
      m_angularVelocity := 0
      m_force := ⟨0, 0⟩
      m_torque := 0 }

/-- `Body::IsAwake`, lines 727-730. -/
def Body.IsAwake (b : Body) : Bool := b.m_flags.awakeFlag

/-- `Body::IsActive`, lines 732-735. -/
def Body.IsActive (b : Body) : Bool := b.m_flags.activeFlag

/-- `Body::IsFixedRotation`, lines 737-740. -/
def Body.IsFixedRotation (b : Body) : Bool := b.m_flags.fixedRotationFlag

/-- The fixture loop shared by `SynchronizeFixtures` and `SetTransform2D`:
`f->Synchronize(broadPhase, xf1, xf2)` for every fixture of the list. -/
def synchronizeAll (co : Collab) (xf1 xf2 : Transform2D) :
    List Fixture → BroadPhase → BroadPhase
  | [], bp => bp
  | f :: fs, bp => synchronizeAll co xf1 xf2 fs (co.Synchronize bp f xf1 xf2)

/-- `Body::SynchronizeFixtures`, lines 431-442. -/
def Body.SynchronizeFixtures (co : Collab) (b : Body) : Body :=
  let q := Rotation2D.Set co.trig b.m_sweep.a0
  let xf1 : Transform2D :=
    { q := q, p := b.m_sweep.c0 - Rotation2D.Mul q b.m_sweep.localCenter }
  b.withBroadPhase (synchronizeAll co xf1 b.m_xf b.m_fixtureList b.broadPhase)

/-- The contact loop of `SetType` and `SetActive` (lines 135-141, 478-484):
the next edge is read before the contact of the current one is destroyed. -/
def destroyAllContacts : List ContactEdge → Body → Body
  | [], b => b
  | ce0 :: ce, b => destroyAllContacts ce (ContactManager_Destroy b ce0.contact)

/-- The inner loop of `SetType`, lines 149-152. -/
def touchProxies : List Nat → BroadPhase → BroadPhase
  | [], bp => bp
  | p :: ps, bp => touchProxies ps (bp.TouchProxy p)

/-- The outer loop of `SetType`, lines 146-153. -/
def touchFixtures : List Fixture → BroadPhase → BroadPhase
  | [], bp => bp
  | f :: fs, bp => touchFixtures fs (touchProxies f.m_proxies bp)

/-- `Body::SetType`, lines 103-154. -/
def Body.SetType (co : Collab) (b : Body) (type : BodyType) : Body :=
  if b.m_world.IsLocked = true then b
  else if b.m_type = type then b
  else
    let b := { b with m_type := type }
    let b := b.ResetMassData
    let b :=
      if b.m_type = staticBody then
        let b := { b with m_linearVelocity := ⟨0, 0⟩, m_angularVelocity := 0 }
        let b := { b with m_sweep := { b.m_sweep with a0 := b.m_sweep.a } }
        let b := { b with m_sweep := { b.m_sweep with c0 := b.m_sweep.c } }
        b.SynchronizeFixtures co
      else b
    let b := b.SetAwake true
    let b := { b with m_force := ⟨0, 0⟩, m_torque := 0 }
    -- Delete the attached contacts.
    let b := destroyAllContacts b.m_contactList b
    let b := { b with m_contactList := [] }
    -- Touch the proxies so that new contacts will be created.
    b.withBroadPhase (touchFixtures b.m_fixtureList b.broadPhase)

/-- Modelled from the spec: `Fixture::Create` is not part of the sources;
the new fixture lives at the allocated address, takes its density and (a
clone of) its shape from the definition and owns no proxy yet. -/
def Fixture.Create (memory : Nat) (d : FixtureDef) : Fixture :=
  { addr := memory, m_density := d.density, m_shape := d.shape, m_proxies := [] }

/-- `Body::CreateFixture(const FixtureDef*)`, lines 156-193.  `memory` is the
address `allocator->Allocate` returns; the result is the new state and the
returned pointer (`none` for NULL). -/
def Body.CreateFixture (co : Collab) (b : Body) (d : FixtureDef) (memory : Nat) :
    Body × Option Fixture :=
  if b.m_world.IsLocked = true then (b, none)
  else
    let fixture := Fixture.Create memory d
    let st : Body × Fixture :=
      if b.m_flags.activeFlag = true then
        let r := co.CreateProxies b.broadPhase fixture.m_shape b.m_xf
        (b.withBroadPhase r.2, { fixture with m_proxies := r.1 })
      else (b, fixture)
    let b := st.1
    let fixture := st.2
    let b := { b with m_fixtureList := fixture :: b.m_fixtureList }
    let b := { b with m_fixtureCount := b.m_fixtureCount + 1 }
    -- Adjust mass properties if needed.
    let b := if fixture.m_density > 0 then b.ResetMassData else b
    -- Let the world know we have a new fixture.
    let b := { b with m_world := { b.m_world with
                m_flags := { b.m_world.m_flags with newFixture := true } } }
    (b, some fixture)

/-- `Body::CreateFixture(const Shape*, real32 density)`, lines 195-202. -/
def Body.CreateFixtureShape (co : Collab) (b : Body) (shape : Shape) (density : ℚ)
    (memory : Nat) : Body × Option Fixture :=
  b.CreateFixture co { shape := shape, density := density } memory

/-- The unlink loop of `DestroyFixture`, lines 216-228: the first node whose
address is `fixture` is removed. -/
def unlinkFixture (fixture : Nat) : List Fixture → List Fixture
  | [] => []
  | f :: fs => if f.addr = fixture then fs else f :: unlinkFixture fixture fs

/-- The contact loop of `DestroyFixture`, lines 234-249. -/
def destroyFixtureContacts (fixture : Nat) : List ContactEdge → Body → Body
  | [], b => b
  | edge :: next, b =>
    let c := edge.contact
    if fixture = c.m_fixtureA ∨ fixture = c.m_fixtureB then
      destroyFixtureContacts fixture next (ContactManager_Destroy b c)
    else
      destroyFixtureContacts fixture next b

/-- `Body::DestroyFixture`, lines 204-269.  The argument is the pointer
(`fixture.addr`) together with the fixture it points to. -/
def Body.DestroyFixture (co : Collab) (b : Body) (fixture : Fixture) : Body :=
  if b.m_world.IsLocked = true then b
  else
    -- Remove the fixture from this body's singly linked list.
    let b := { b with m_fixtureList := unlinkFixture fixture.addr b.m_fixtureList }
    -- Destroy any contacts associated with the fixture.
    let b := destroyFixtureContacts fixture.addr b.m_contactList b
    let b :=
      if b.m_flags.activeFlag = true then
        b.withBroadPhase (co.DestroyProxies b.broadPhase fixture.m_proxies)
      else b
    let b := { b with m_fixtureCount := b.m_fixtureCount - 1 }
    -- Reset the mass data.
    b.ResetMassData

/-- The joint loop of `ShouldCollide`, lines 393-402. -/
def jointPreventsCollision (other : Nat) : List JointEdge → Bool
  | [] => false
  | jn :: next =>
    if jn.other = other then
      if jn.joint.m_collideConnected = false then true
      else jointPreventsCollision other next
    else jointPreventsCollision other next

/-- `Body::ShouldCollide(const Body* other)`, lines 384-405: `other` is the
pointer, `otherBody` the body it points to. -/
def Body.ShouldCollide (b : Body) (other : Nat) (otherBody : Body) : Bool :=
  -- At least one body should be dynamic.
  if b.m_type ≠ dynamicBody ∧ otherBody.m_type ≠ dynamicBody then false
  -- Does a joint prevent collision?
  else if jointPreventsCollision other b.m_jointList then false
  else true

/-- `Body::SetTransform2D`, lines 407-429. -/
def Body.SetTransform2D (co : Collab) (b : Body) (position : Vec2) (angle : ℚ) : Body :=
  if b.m_world.IsLocked = true then b
  else
    let b := { b with m_xf := { b.m_xf with q := Rotation2D.Set co.trig angle } }
    let b := { b with m_xf := { b.m_xf with p := position } }
    let b := { b with m_sweep := { b.m_sweep with
                c := Transform2D.Mul b.m_xf b.m_sweep.localCenter } }
    let b := { b with m_sweep := { b.m_sweep with a := angle } }
    let b := { b with m_sweep := { b.m_sweep with c0 := b.m_sweep.c } }
    let b := { b with m_sweep := { b.m_sweep with a0 := angle } }
    b.withBroadPhase (synchronizeAll co b.m_xf b.m_xf b.m_fixtureList b.broadPhase)

/-- `Body::SetFixedRotation`, lines 489-509. -/
def Body.SetFixedRotation (b : Body) (flag : Bool) : Body :=
  let status := b.m_flags.fixedRotationFlag
  if status = flag then b
  else
    let b :=
      if flag then { b with m_flags := { b.m_flags with fixedRotationFlag := true } }
      else { b with m_flags := { b.m_flags with fixedRotationFlag := false } }
    let b := { b with m_angularVelocity := 0 }
    b.ResetMassData

/-- `Body::SetLinearVelocity`, lines 572-585. -/
def Body.SetLinearVelocity (b : Body) (v : Vec2) : Body :=
  if b.m_type = staticBody then b
  else
    let b := if dot v v > 0 then b.SetAwake true else b
    { b with m_linearVelocity := v }

/-- `Body::SetAngularVelocity`, lines 592-605. -/
def Body.SetAngularVelocity (b : Body) (w : ℚ) : Body :=
  if b.m_type = staticBody then b
  else
    let b := if w * w > 0 then b.SetAwake true else b
    { b with m_angularVelocity := w }

/-- `Body::SetSleepingAllowed`, lines 742-753. -/
def Body.SetSleepingAllowed (b : Body) (flag : Bool) : Body :=
  if flag then { b with m_flags := { b.m_flags with autoSleepFlag := true } }
  else
    let b := { b with m_flags := { b.m_flags with autoSleepFlag := false } }
    b.SetAwake true

/-- `Body::ApplyForce`, lines 810-828. -/
def Body.ApplyForce (b : Body) (force point : Vec2) (wake : Bool) : Body :=
  if b.m_type ≠ dynamicBody then b
  else
    let b := if wake = true ∧ b.m_flags.awakeFlag = false then b.SetAwake true else b
    -- Don't accumulate a force if the body is sleeping.
    if b.m_flags.awakeFlag = true then
      let b := { b with m_force := b.m_force + force }
      { b with m_torque := b.m_torque + Cross2v (point - b.m_sweep.c) force }
    else b

/-- `Body::ApplyForceToCenter`, lines 830-847. -/
def Body.ApplyForceToCenter (b : Body) (force : Vec2) (wake : Bool) : Body :=
  if b.m_type ≠ dynamicBody then b
  else
    let b := if wake = true ∧ b.m_flags.awakeFlag = false then b.SetAwake true else b
    if b.m_flags.awakeFlag = true then
      { b with m_force := b.m_force + force }
    else b

/-- `Body::ApplyTorque`, lines 849-866. -/
def Body.ApplyTorque (b : Body) (torque : ℚ) (wake : Bool) : Body :=
  if b.m_type ≠ dynamicBody then b
  else
    let b := if wake = true ∧ b.m_flags.awakeFlag = false then b.SetAwake true else b
    if b.m_flags.awakeFlag = true then
      { b with m_torque := b.m_torque + torque }
    else b

/-- `Body::ApplyLinearImpulse`, lines 868-886. -/
def Body.ApplyLinearImpulse (b : Body) (impulse point : Vec2) (wake : Bool) : Body :=
  if b.m_type ≠ dynamicBody then b
  else
    let b := if wake = true ∧ b.m_flags.awakeFlag = false then b.SetAwake true else b
    -- Don't accumulate velocity if the body is sleeping
    if b.m_flags.awakeFlag = true then
      let b := { b with m_linearVelocity := b.m_linearVelocity + b.m_invMass * impulse }
      { b with m_angularVelocity :=
          b.m_angularVelocity + b.m_invI * Cross2v (point - b.m_sweep.c) impulse }
    else b

/-- `Body::ApplyAngularImpulse`, lines 888-905. -/
def Body.ApplyAngularImpulse (b : Body) (impulse : ℚ) (wake : Bool) : Body :=
  if b.m_type ≠ dynamicBody then b
  else
    let b := if wake = true ∧ b.m_flags.awakeFlag = false then b.SetAwake true else b
    if b.m_flags.awakeFlag = true then
      { b with m_angularVelocity := b.m_angularVelocity + b.m_invI * impulse }
    else b

/-- `Body::SynchronizeTransform2D`, lines 907-911. -/
def Body.SynchronizeTransform2D (tr : Trig) (b : Body) : Body :=
  let b := { b with m_xf := { b.m_xf with q := Rotation2D.Set tr b.m_sweep.a } }
  { b with m_xf := { b.m_xf with
      p := b.m_sweep.c - Rotation2D.Mul b.m_xf.q b.m_sweep.localCenter } }

/-! ## Operation sequences -/

/-- A call of a public operation of `Body`, or (`world`) a change the owning
world makes to its own state between two calls (locking, unlocking, contact
and broad-phase updates). -/
inductive Op where
  | ResetMassData
  | SetMassData (massData : MassData)
  | SetType (type : BodyType)
  | CreateFixture (d : FixtureDef) (memory : Nat)
  | DestroyFixture (fixture : Fixture)
  | SetFixedRotation (flag : Bool)
  | SetAwake (flag : Bool)
  | SetLinearVelocity (v : Vec2)
  | SetAngularVelocity (w : ℚ)
  | ApplyForce (force point : Vec2) (wake : Bool)
  | ApplyForceToCenter (force : Vec2) (wake : Bool)
  | ApplyTorque (torque : ℚ) (wake : Bool)
  | ApplyLinearImpulse (impulse point : Vec2) (wake : Bool)
  | ApplyAngularImpulse (impulse : ℚ) (wake : Bool)
  | SetSleepingAllowed (flag : Bool)
  | SetTransform2D (position : Vec2) (angle : ℚ)
  | SynchronizeTransform2D
  | world (w : World)

/-- The state after one operation. -/
def Op.apply (co : Collab) (b : Body) : Op → Body
  | .ResetMassData => b.ResetMassData
  | .SetMassData massData => b.SetMassData massData
  | .SetType type => b.SetType co type
  | .CreateFixture d memory => (b.CreateFixture co d memory).1
  | .DestroyFixture fixture => b.DestroyFixture co fixture
  | .SetFixedRotation flag => b.SetFixedRotation flag
  | .SetAwake flag => b.SetAwake flag
  | .SetLinearVelocity v => b.SetLinearVelocity v
  | .SetAngularVelocity w => b.SetAngularVelocity w
  | .ApplyForce force point wake => b.ApplyForce force point wake
  | .ApplyForceToCenter force wake => b.ApplyForceToCenter force wake
  | .ApplyTorque torque wake => b.ApplyTorque torque wake
  | .ApplyLinearImpulse impulse point wake => b.ApplyLinearImpulse impulse point wake
  | .ApplyAngularImpulse impulse wake => b.ApplyAngularImpulse impulse wake
  | .SetSleepingAllowed flag => b.SetSleepingAllowed flag
  | .SetTransform2D position angle => b.SetTransform2D co position angle
  | .SynchronizeTransform2D => b.SynchronizeTransform2D co.trig
  | .world w => { b with m_world := w }

/-- The state after a sequence of operations, first operation first. -/
def run (co : Collab) (b : Body) (ops : List Op) : Body :=
  ops.foldl (Op.apply co) b

/-- The operations that touch the mass data: `ResetMassData`, `SetMassData`,
`SetType`, `CreateFixture`, `DestroyFixture`, `SetFixedRotation` (and the
world changing its own state in between). -/
def Op.isMassOp : Op → Bool
  | .ResetMassData | .SetMassData _ | .SetType _ | .CreateFixture _ _
  | .DestroyFixture _ | .SetFixedRotation _ | .world _ => true
  | _ => false

/-- The operations of the sleep invariant: `SetAwake`, `SetLinearVelocity`,
`SetAngularVelocity`, the five `Apply*`, `SetType`, `SetMassData`,
`ResetMassData`, `SetFixedRotation`, `SetSleepingAllowed` (and the world
changing its own state in between). -/
def Op.isSleepOp : Op → Bool
  | .SetAwake _ | .SetLinearVelocity _ | .SetAngularVelocity _
  | .ApplyForce _ _ _ | .ApplyForceToCenter _ _ | .ApplyTorque _ _
  | .ApplyLinearImpulse _ _ _ | .ApplyAngularImpulse _ _
  | .SetType _ | .SetMassData _ | .ResetMassData | .SetFixedRotation _
  | .SetSleepingAllowed _ | .world _ => true
  | _ => false

/-- The fixtures the loop of `ResetMassData` does not skip. -/
def massFixtures (fs : List Fixture) : List Fixture :=
  fs.filter (fun f => f.m_density ≠ 0)

/-- Sum of `mass_i` over the fixtures with non-zero density. -/
def totalMass (fs : List Fixture) : ℚ :=
  ((massFixtures fs).map (fun f => f.GetMassData.mass)).sum

/-- Sum of `mass_i * center_i` over the fixtures with non-zero density. -/
def weightedCenter (fs : List Fixture) : Vec2 :=
  ((massFixtures fs).map (fun f => f.GetMassData.mass * f.GetMassData.center)).sum

/-- Sum of `I_i` over the fixtures with non-zero density. -/
def totalInertia (fs : List Fixture) : ℚ :=
  ((massFixtures fs).map (fun f => f.GetMassData.I)).sum

/-- The mass invariant of the data model: a dynamic body has positive mass
and inverse mass, a static or kinematic body has zero mass data. -/
def massInv (b : Body) : Prop :=
  (b.m_type = dynamicBody → 0 < b.m_mass ∧ 0 < b.m_invMass) ∧
  (b.m_type ≠ dynamicBody →
    b.m_mass = 0 ∧ b.m_invMass = 0 ∧ b.m_I = 0 ∧ b.m_invI = 0)

/-! ## Example data -/

/-- Example collaborators: the trigonometric values are those of angle 0 (the
only angle the examples use); proxies are numbered after the live ones. -/
def exCollab : Collab :=
  { trig := { sinf := fun _ => 0, cosf := fun _ => 1 }
    CreateProxies := fun bp shape _ =>
      let ids := (List.range shape.GetChildCount).map (fun i => i + bp.m_proxies.length)
      (ids, { m_proxies := bp.m_proxies ++ ids, m_moveBuffer := bp.m_moveBuffer ++ ids })
    DestroyProxies := fun bp ids =>
      { m_proxies := bp.m_proxies.filter (fun i => !ids.contains i)
        m_moveBuffer := bp.m_moveBuffer.filter (fun i => !ids.contains i) }
    Synchronize := fun bp f _ _ => { bp with m_moveBuffer := bp.m_moveBuffer ++ f.m_proxies } }

/-- Example world: unlocked, no contact, empty broad phase. -/
def exWorld : World :=
  { m_flags := { newFixture := false, locked := false }
    m_contactManager := { m_broadPhase := { m_proxies := [], m_moveBuffer := [] }
                          m_contactList := [] } }

/-- Example world: the same, locked. -/
def exLockedWorld : World :=
  { exWorld with m_flags := { newFixture := false, locked := true } }

/-- Example body definition of a given type: at the origin, at rest, awake. -/
def exBodyDef (type : BodyType) : BodyDef :=
  { type := type, position := ⟨0, 0⟩, angle := 0, linearVelocity := ⟨0, 0⟩
    angularVelocity := 0, linearDamping := 0, angularDamping := 0, allowSleep := true
    awake := true, fixedRotation := false, bullet := false, active := true
    userData := 0, gravityScale := 1 }

/-- Example shape: a disc of radius 1 centred at (1, 0) with `π` replaced by
3: mass `3 * density`, inertia `mass * (1/2 + 1)` about the body origin. -/
def exShape : Shape :=
  { ComputeMass := fun density =>
      { mass := 3 * density, center := ⟨1, 0⟩, I := 3 * density * (3 / 2) }
    GetChildCount := 1 }

/-- Example fixture: `exShape` with density 2 at address 100, one proxy. -/
def exFixture : Fixture :=
  { addr := 100, m_density := 2, m_shape := exShape, m_proxies := [0] }

/-- Example mass data. -/
def exMassData : MassData := { mass := 4, center := ⟨1, 2⟩, I := 30 }

/-- Example sequence of mass operations: attach a dense fixture, override the
mass data, change the type, attach a second fixture, fix the rotation, lock
the world and try to destroy a fixture. -/
def exMassOps (type : BodyType) : List Op :=
  [ .CreateFixture { shape := exShape, density := 2 } 100
  , .SetMassData exMassData
  , .SetType type
  , .CreateFixture { shape := exShape, density := 0 } 200
  , .SetFixedRotation true
  , .world exLockedWorld
  , .DestroyFixture exFixture ]

/-- Example body: dynamic, two dense fixtures and one of density 0, unlocked
world, awake, spinning. -/
def exDynamicBody : Body :=
  { Body.ctor exCollab.trig (exBodyDef dynamicBody) exWorld with
    m_fixtureList :=
      [ exFixture
      , { addr := 200, m_density := 0, m_shape := exShape, m_proxies := [1] }
      , { addr := 300, m_density := 1
          m_shape := { ComputeMass := fun density =>
                         { mass := 2 * density, center := ⟨0, 3⟩, I := 20 * density }
                       GetChildCount := 1 }
          m_proxies := [2] } ]
    m_fixtureCount := 3
    m_angularVelocity := 1
    m_mass := 7, m_invMass := 1 / 7, m_I := 5, m_invI := 1 / 5 }

/-- Example body: `exDynamicBody` put to sleep. -/
def exSleepingBody : Body :=
  { exDynamicBody with
    m_flags := { exDynamicBody.m_flags with awakeFlag := false }
    m_angularVelocity := 0 }

/-- Example body: `exDynamicBody` with two joint edges to the body at address
7, the second one with collision disabled, and one edge to the body at 8. -/
def exJointedBody : Body :=
  { exDynamicBody with
    m_jointList :=
      [ { other := 7, joint := { m_collideConnected := true } }
      , { other := 8, joint := { m_collideConnected := false } }
      , { other := 7, joint := { m_collideConnected := false } } ] }

/-- Example body: `exDynamicBody` in a locked world. -/
def exLockedBody : Body := { exDynamicBody with m_world := exLockedWorld }

/-- The force part of the sleep invariant: a body whose awake flag is clear
has no accumulated force or torque. -/
def forceInv (b : Body) : Prop :=
  b.m_flags.awakeFlag = false → b.m_force = ⟨0, 0⟩ ∧ b.m_torque = 0

/-- Example body definition: valid, dynamic, asleep (`awake = false`) and
moving (`linearVelocity = (3, 0)`, `angularVelocity = 2`). -/
def exAsleepMovingDef : BodyDef :=
  { exBodyDef dynamicBody with awake := false, linearVelocity := ⟨3, 0⟩, angularVelocity := 2 }

/-- Example sequence of sleep operations that ends with the body asleep. -/
def exSleepOps : List Op :=
  [ .SetLinearVelocity ⟨1, 1⟩
  , .ApplyForce ⟨1, 2⟩ ⟨3, 4⟩ true
  , .ResetMassData
  , .SetAwake false
  , .ApplyTorque 5 false
  , .SetSleepingAllowed true ]

/-- The fixed-rotation invariant: a body whose fixedRotation flag is set has
zero inertia and inverse inertia. -/
def fixedInv (b : Body) : Prop :=
  b.m_flags.fixedRotationFlag = true → b.m_I = 0 ∧ b.m_invI = 0

/-- The test of `DestroyFixture`, line 243: the contact refers to the
fixture at this address. -/
def Contact.refersTo (c : Contact) (fixture : Nat) : Bool :=
  decide (fixture = c.m_fixtureA ∨ fixture = c.m_fixtureB)

/-- The contact at address `addr` is not the contact of any edge of `l` that
refers to the fixture. -/
def survivesDestroy (fixture : Nat) (l : List ContactEdge) (addr : Nat) : Bool :=
  l.all (fun e2 => !(e2.contact.refersTo fixture) || decide (addr ≠ e2.contact.addr))

/-- Example body: `exDynamicBody` (fixtures at 100, 200, 300) with three
contacts, two of which refer to the fixture at 100. -/
def exContactBody : Body :=
  { exDynamicBody with
    m_contactList :=
      [ { other := 7, contact := { addr := 1000, m_fixtureA := 100, m_fixtureB := 900 } }
      , { other := 8, contact := { addr := 1001, m_fixtureA := 901, m_fixtureB := 300 } }
      , { other := 9, contact := { addr := 1002, m_fixtureA := 902, m_fixtureB := 100 } } ]
    m_world := { exWorld with
      m_contactManager := { exWorld.m_contactManager with
        m_contactList :=
          [ { addr := 1000, m_fixtureA := 100, m_fixtureB := 900 }
          , { addr := 1001, m_fixtureA := 901, m_fixtureB := 300 }
          , { addr := 1002, m_fixtureA := 902, m_fixtureB := 100 }
          , { addr := 1003, m_fixtureA := 903, m_fixtureB := 904 } ] } } }

/-! ## ChainShape.cpp

A shallow embedding of `src/Physics/src/ChainShape.cpp`.  The vertex array
`m_vertices` is `none` for NULL and `some` list for a malloc'ed array; a
`(pointer, count)` argument is the list of the `count` vertices at the
pointer.  The effect of an operation (assertions compiled out) and its
assertions are separate definitions. -/

/-- Modelled from the spec: `MathUtils::DistanceSquared` is declared in a
header that is not part of the sources; the squared distance of two points. -/
def DistanceSquared (a b : Vec2) : ℚ := dot (a - b) (a - b)

/-- The variants of `Shape::Type`; the chain code names `Shape::edge`. -/
inductive ShapeType where
  | circle
  | edge
  | polygon
  | chain
deriving DecidableEq, Repr

/-- EdgeShape: the fields `GetChildEdge` writes. -/
@[ext] structure EdgeShape where
  m_type : ShapeType
  m_radius : ℚ
  m_vertex1 : Vec2
  m_vertex2 : Vec2
  m_vertex0 : Vec2
  m_vertex3 : Vec2
  m_hasVertex0 : Bool
  m_hasVertex3 : Bool
deriving DecidableEq

/-- The state of a `ChainShape`. -/
@[ext] structure ChainShape where
  m_radius : ℚ
  m_vertices : Option (List Vec2)
  m_count : Int
  m_prevVertex : Vec2
  m_nextVertex : Vec2
  m_hasPrevVertex : Bool
  m_hasNextVertex : Bool
deriving DecidableEq

/-- The array read `m_vertices[i]`; a read outside the array (undefined
behaviour in the source) gives the zero vector. -/
def readVertex (vs : Option (List Vec2)) (i : Int) : Vec2 :=
  if i < 0 then ⟨0, 0⟩ else ((vs.getD [])[i.toNat]?).getD ⟨0, 0⟩

/-- The assertion loop of `CreateLoop` and `CreateChain` (lines 21-28 and
44-52): every two consecutive vertices `vertices[i-1]`, `vertices[i]` are
farther apart than `linearSlop`. -/
def spacingAsserts (linearSlop : ℚ) : List Vec2 → Prop
  | v1 :: v2 :: rest =>
    DistanceSquared v1 v2 > linearSlop * linearSlop ∧ spacingAsserts linearSlop (v2 :: rest)
  | _ => True

/-- The assertions of `CreateLoop`, lines 19-28; `linearSlop` is a constant
of a header that is not part of the sources. -/
def ChainShape.CreateLoop_assert (linearSlop : ℚ) (s : ChainShape) (vertices : List Vec2) :
    Prop :=
  (s.m_vertices = none ∧ s.m_count = 0) ∧ (vertices.length : Int) ≥ 3 ∧
    spacingAsserts linearSlop vertices

/-- `ChainShape::CreateLoop`, lines 30-37. -/
def ChainShape.CreateLoop (s : ChainShape) (vertices : List Vec2) : ChainShape :=
  let count : Int := vertices.length
  let s := { s with m_count := count + 1 }
  -- malloc, memcpy of `count` vertices, m_vertices[count] = m_vertices[0]
  let s := { s with m_vertices := some (vertices ++ [readVertex (some vertices) 0]) }
  let s := { s with m_prevVertex := readVertex s.m_vertices (s.m_count - 2) }
  let s := { s with m_nextVertex := readVertex s.m_vertices 1 }
  let s := { s with m_hasPrevVertex := true }
  { s with m_hasNextVertex := true }

/-- The assertions of `CreateChain`, lines 42-52. -/
def ChainShape.CreateChain_assert (linearSlop : ℚ) (s : ChainShape) (vertices : List Vec2) :
    Prop :=
  (s.m_vertices = none ∧ s.m_count = 0) ∧ (vertices.length : Int) ≥ 2 ∧
    spacingAsserts linearSlop vertices

/-- `ChainShape::CreateChain`, lines 54-62. -/
def ChainShape.CreateChain (s : ChainShape) (vertices : List Vec2) : ChainShape :=
  let s := { s with m_count := vertices.length }
  let s := { s with m_vertices := some vertices }
  let s := { s with m_hasPrevVertex := false }
  let s := { s with m_hasNextVertex := false }
  let s := { s with m_prevVertex := ⟨0, 0⟩ }
  { s with m_nextVertex := ⟨0, 0⟩ }

/-- `ChainShape::SetPrevVertex`, lines 65-69. -/
def ChainShape.SetPrevVertex (s : ChainShape) (prevVertex : Vec2) : ChainShape :=
  { s with m_prevVertex := prevVertex, m_hasPrevVertex := true }

/-- `ChainShape::SetNextVertex`, lines 71-75. -/
def ChainShape.SetNextVertex (s : ChainShape) (nextVertex : Vec2) : ChainShape :=
  { s with m_nextVertex := nextVertex, m_hasNextVertex := true }

/-- `ChainShape::GetChildCount`, lines 89-93: edge count = vertex count - 1. -/
def ChainShape.GetChildCount (s : ChainShape) : Int := s.m_count - 1

/-- The assertion of `GetChildEdge`, line 97. -/
def ChainShape.GetChildEdge_assert (s : ChainShape) (index : Int) : Prop :=
  0 ≤ index ∧ index < s.m_count - 1

/-- `ChainShape::GetChildEdge`, lines 95-125: the edge written through the
pointer `edge`. -/
def ChainShape.GetChildEdge (s : ChainShape) (edge : EdgeShape) (index : Int) : EdgeShape :=
  let edge := { edge with m_type := ShapeType.edge }
  let edge := { edge with m_radius := s.m_radius }
  let edge := { edge with m_vertex1 := readVertex s.m_vertices (index + 0) }
  let edge := { edge with m_vertex2 := readVertex s.m_vertices (index + 1) }
  let edge :=
    if index > 0 then
      { edge with m_vertex0 := readVertex s.m_vertices (index - 1), m_hasVertex0 := true }
    else
      { edge with m_vertex0 := s.m_prevVertex, m_hasVertex0 := s.m_hasPrevVertex }
  if index < s.m_count - 2 then
    { edge with m_vertex3 := readVertex s.m_vertices (index + 2), m_hasVertex3 := true }
  else
    { edge with m_vertex3 := s.m_nextVertex, m_hasVertex3 := s.m_hasNextVertex }

/-- The `ChainShape` default constructor is declared in ChainShape.hpp, which
is not part of the sources; `Clone` runs `CreateChain` right after it, whose
first assertion is `m_vertices == NULL && m_count == 0`, so it leaves a shape
with no vertex array.  The radius it sets is a parameter. -/
def ChainShape.ctor (polygonRadius : ℚ) : ChainShape :=
  { m_radius := polygonRadius, m_vertices := none, m_count := 0
    m_prevVertex := ⟨0, 0⟩, m_nextVertex := ⟨0, 0⟩
    m_hasPrevVertex := false, m_hasNextVertex := false }

/-- The `(pointer, count)` pair `m_vertices, m_count` as a list. -/
def ChainShape.vertices (s : ChainShape) : List Vec2 :=
  (s.m_vertices.getD []).take s.m_count.toNat

/-- The assertions `Clone` runs: those of `CreateChain(m_vertices, m_count)`
on the new shape, line 81. -/
def ChainShape.Clone_assert (linearSlop polygonRadius : ℚ) (s : ChainShape) : Prop :=
  (ChainShape.ctor polygonRadius).CreateChain_assert linearSlop s.vertices

/-- `ChainShape::Clone`, lines 77-87. -/
def ChainShape.Clone (polygonRadius : ℚ) (s : ChainShape) : ChainShape :=
  let clone := ChainShape.ctor polygonRadius
  let clone := clone.CreateChain s.vertices
  let clone := { clone with m_prevVertex := s.m_prevVertex }
  let clone := { clone with m_nextVertex := s.m_nextVertex }
  let clone := { clone with m_hasPrevVertex := s.m_hasPrevVertex }
  { clone with m_hasNextVertex := s.m_hasNextVertex }

/-- Example edge passed to `GetChildEdge` to be overwritten. -/
def exEdge : EdgeShape :=
  { m_type := ShapeType.circle, m_radius := 0, m_vertex1 := ⟨9, 9⟩, m_vertex2 := ⟨9, 9⟩
    m_vertex0 := ⟨9, 9⟩, m_vertex3 := ⟨9, 9⟩, m_hasVertex0 := false, m_hasVertex3 := false }

/-- Example loop input: four corners of the unit square. -/
def exSquare : List Vec2 := [⟨0, 0⟩, ⟨1, 0⟩, ⟨1, 1⟩, ⟨0, 1⟩]

/-- Example loop input whose last vertex repeats the first one. -/
def exClosedTriangle : List Vec2 := [⟨0, 0⟩, ⟨1, 0⟩, ⟨1, 1⟩, ⟨0, 0⟩]

/-- Example value of `linearSlop` (0.005). -/
def exLinearSlop : ℚ := 1 / 200

/-- Example value of `polygonRadius` (2 * linearSlop). -/
def exPolygonRadius : ℚ := 1 / 100

/-- A chain shape built by `CreateChain` or `CreateLoop` in a call whose
count assertion held (`count >= 2`, `count >= 3`), possibly followed by
`SetPrevVertex` and `SetNextVertex`. -/
inductive ChainShape.Built : ChainShape → Prop where
  | chain (s : ChainShape) (vertices : List Vec2) (h : (vertices.length : Int) ≥ 2) :
      ChainShape.Built (s.CreateChain vertices)
  | loop (s : ChainShape) (vertices : List Vec2) (h : (vertices.length : Int) ≥ 3) :
      ChainShape.Built (s.CreateLoop vertices)
  | setPrev (s : ChainShape) (prevVertex : Vec2) (h : ChainShape.Built s) :
      ChainShape.Built (s.SetPrevVertex prevVertex)
  | setNext (s : ChainShape) (nextVertex : Vec2) (h : ChainShape.Built s) :
      ChainShape.Built (s.SetNextVertex nextVertex)

/-- Every two consecutive vertices of the list are farther apart than
`linearSlop`. -/
def spacedApart (linearSlop : ℚ) (l : List Vec2) : Prop :=
  ∀ (k : Nat) (v w : Vec2), l[k]? = some v → l[k + 1]? = some w →
    DistanceSquared v w > linearSlop * linearSlop

/-- Example body definition: static and spinning (the constructor copies the
angular velocity whatever the type). -/
def exSpinningDef : BodyDef := { exBodyDef staticBody with angularVelocity := 2 }

/-- Example sequence of mass operations that gives a dynamic body with
non-zero inertia: attach a dense fixture, then make the body dynamic. -/
def exInertiaOps : List Op :=
  [ .CreateFixture { shape := exShape, density := 2 } 100, .SetType dynamicBody ]

/-! ## Simplification lemmas for vectors -/

namespace Vec2

@[simp] theorem add_x (a b : Vec2) : (a + b).x = a.x + b.x := rfl
@[simp] theorem add_y (a b : Vec2) : (a + b).y = a.y + b.y := rfl
@[simp] theorem sub_x (a b : Vec2) : (a - b).x = a.x - b.x := rfl
@[simp] theorem sub_y (a b : Vec2) : (a - b).y = a.y - b.y := rfl
@[simp] theorem smul_x (s : ℚ) (v : Vec2) : (s * v).x = s * v.x := rfl
@[simp] theorem smul_y (s : ℚ) (v : Vec2) : (s * v).y = s * v.y := rfl
@[simp] theorem muls_x (v : Vec2) (s : ℚ) : (v * s).x = v.x * s := rfl
@[simp] theorem muls_y (v : Vec2) (s : ℚ) : (v * s).y = v.y * s := rfl
@[simp] theorem zero_x : (0 : Vec2).x = 0 := rfl
@[simp] theorem zero_y : (0 : Vec2).y = 0 := rfl

end Vec2

/-! ## Mass data -/

theorem accumulateMass_eq (fs : List Fixture) (b : Body) (lc : Vec2) :
    accumulateMass fs (b, lc) =
      ({ b with m_mass := b.m_mass + totalMass fs, m_I := b.m_I + totalInertia fs },
        lc + weightedCenter fs) := by
  induction fs generalizing b lc with
  | nil =>
    simp [accumulateMass, totalMass, totalInertia, weightedCenter, massFixtures]
    ext <;> simp
  | cons f fs ih =>
    by_cases hd : f.m_density = 0
    · simp [accumulateMass, hd, ih, totalMass, totalInertia, weightedCenter, massFixtures]
    · simp [accumulateMass, hd, ih, totalMass, totalInertia, weightedCenter, massFixtures]
      refine ⟨⟨?_, ?_⟩, ?_⟩
      · ring
      · ring
      · ext <;> simp <;> ring

theorem ResetMassData_type (b : Body) : b.ResetMassData.m_type = b.m_type := by
  unfold Body.ResetMassData
  simp only [accumulateMass_eq]
  split_ifs <;> rfl

theorem ResetMassData_flags (b : Body) : b.ResetMassData.m_flags = b.m_flags := by
  unfold Body.ResetMassData
  simp only [accumulateMass_eq]
  split_ifs <;> rfl

theorem ResetMassData_nondynamic (b : Body) (h : b.m_type ≠ dynamicBody) :
    b.ResetMassData.m_mass = 0 ∧ b.ResetMassData.m_invMass = 0 ∧
      b.ResetMassData.m_I = 0 ∧ b.ResetMassData.m_invI = 0 := by
  have h2 : b.m_type = staticBody ∨ b.m_type = kinematicBody := by
    cases hb : b.m_type <;> simp_all
  unfold Body.ResetMassData
  simp [h2]

theorem ResetMassData_mass (b : Body) (h : b.m_type = dynamicBody) :
    b.ResetMassData.m_mass =
      if totalMass b.m_fixtureList > 0 then totalMass b.m_fixtureList else 1 := by
  unfold Body.ResetMassData
  simp only [accumulateMass_eq, h]
  simp
  split_ifs <;> simp

theorem ResetMassData_invMass (b : Body) (h : b.m_type = dynamicBody) :
    b.ResetMassData.m_invMass =
      if totalMass b.m_fixtureList > 0 then 1 / totalMass b.m_fixtureList else 1 := by
  unfold Body.ResetMassData
  simp only [accumulateMass_eq, h]
  simp
  split_ifs <;> simp

theorem ResetMassData_localCenter (b : Body) (h : b.m_type = dynamicBody) :
    b.ResetMassData.m_sweep.localCenter =
      if totalMass b.m_fixtureList > 0 then
        weightedCenter b.m_fixtureList * (1 / totalMass b.m_fixtureList)
      else weightedCenter b.m_fixtureList := by
  unfold Body.ResetMassData
  simp only [accumulateMass_eq, h]
  simp
  split_ifs <;> ext <;> simp

theorem ResetMassData_I (b : Body) (h : b.m_type = dynamicBody) :
    b.ResetMassData.m_I =
      if totalInertia b.m_fixtureList > 0 ∧ b.m_flags.fixedRotationFlag = false then
        totalInertia b.m_fixtureList -
          b.ResetMassData.m_mass *
            dot b.ResetMassData.m_sweep.localCenter b.ResetMassData.m_sweep.localCenter
      else 0 := by
  rw [ResetMassData_mass b h, ResetMassData_localCenter b h]
  unfold Body.ResetMassData
  simp only [accumulateMass_eq, h]
  simp
  split_ifs <;> simp_all [dot]

theorem ResetMassData_invI (b : Body) (h : b.m_type = dynamicBody) :
    b.ResetMassData.m_invI =
      if totalInertia b.m_fixtureList > 0 ∧ b.m_flags.fixedRotationFlag = false then
        1 / b.ResetMassData.m_I
      else 0 := by
  rw [ResetMassData_I b h, ResetMassData_mass b h, ResetMassData_localCenter b h]
  unfold Body.ResetMassData
  simp only [accumulateMass_eq, h]
  simp
  split_ifs <;> simp_all [dot]

/-! ## Frame lemmas for the helper loops -/

theorem destroyAllContacts_frame (l : List ContactEdge) (b : Body) :
    ∃ cl w, destroyAllContacts l b = { b with m_contactList := cl, m_world := w } := by
  induction l generalizing b with
  | nil => exact ⟨b.m_contactList, b.m_world, rfl⟩
  | cons e l ih =>
    obtain ⟨cl, w, h⟩ := ih (ContactManager_Destroy b e.contact)
    exact ⟨cl, w, by rw [destroyAllContacts, h]; rfl⟩

theorem destroyFixtureContacts_frame (fixture : Nat) (l : List ContactEdge) (b : Body) :
    ∃ cl w, destroyFixtureContacts fixture l b =
      { b with m_contactList := cl, m_world := w } := by
  induction l generalizing b with
  | nil => exact ⟨b.m_contactList, b.m_world, rfl⟩
  | cons e l ih =>
    by_cases hc : fixture = e.contact.m_fixtureA ∨ fixture = e.contact.m_fixtureB
    · obtain ⟨cl, w, h⟩ := ih (ContactManager_Destroy b e.contact)
      exact ⟨cl, w, by rw [destroyFixtureContacts]; simp only [hc, if_true]; rw [h]; rfl⟩
    · obtain ⟨cl, w, h⟩ := ih b
      exact ⟨cl, w, by rw [destroyFixtureContacts]; simp only [hc, if_false]; rw [h]⟩

@[simp] theorem destroyAllContacts_m_type (l : List ContactEdge) (b : Body) :
    (destroyAllContacts l b).m_type = b.m_type := by
  obtain ⟨cl, w, h⟩ := destroyAllContacts_frame l b
  rw [h]

@[simp] theorem destroyFixtureContacts_m_type (fixture : Nat) (l : List ContactEdge) (b : Body) :
    (destroyFixtureContacts fixture l b).m_type = b.m_type := by
  obtain ⟨cl, w, h⟩ := destroyFixtureContacts_frame fixture l b
  rw [h]

@[simp] theorem destroyAllContacts_m_mass (l : List ContactEdge) (b : Body) :
    (destroyAllContacts l b).m_mass = b.m_mass := by
  obtain ⟨cl, w, h⟩ := destroyAllContacts_frame l b
  rw [h]

@[simp] theorem destroyFixtureContacts_m_mass (fixture : Nat) (l : List ContactEdge) (b : Body) :
    (destroyFixtureContacts fixture l b).m_mass = b.m_mass := by
  obtain ⟨cl, w, h⟩ := destroyFixtureContacts_frame fixture l b
  rw [h]

@[simp] theorem destroyAllContacts_m_invMass (l : List ContactEdge) (b : Body) :
    (destroyAllContacts l b).m_invMass = b.m_invMass := by
  obtain ⟨cl, w, h⟩ := destroyAllContacts_frame l b
  rw [h]

@[simp] theorem destroyFixtureContacts_m_invMass (fixture : Nat) (l : List ContactEdge) (b : Body) :
    (destroyFixtureContacts fixture l b).m_invMass = b.m_invMass := by
  obtain ⟨cl, w, h⟩ := destroyFixtureContacts_frame fixture l b
  rw [h]

@[simp] theorem destroyAllContacts_m_I (l : List ContactEdge) (b : Body) :
    (destroyAllContacts l b).m_I = b.m_I := by
  obtain ⟨cl, w, h⟩ := destroyAllContacts_frame l b
  rw [h]

@[simp] theorem destroyFixtureContacts_m_I (fixture : Nat) (l : List ContactEdge) (b : Body) :
    (destroyFixtureContacts fixture l b).m_I = b.m_I := by
  obtain ⟨cl, w, h⟩ := destroyFixtureContacts_frame fixture l b
  rw [h]

@[simp] theorem destroyAllContacts_m_invI (l : List ContactEdge) (b : Body) :
    (destroyAllContacts l b).m_invI = b.m_invI := by
  obtain ⟨cl, w, h⟩ := destroyAllContacts_frame l b
  rw [h]

@[simp] theorem destroyFixtureContacts_m_invI (fixture : Nat) (l : List ContactEdge) (b : Body) :
    (destroyFixtureContacts fixture l b).m_invI = b.m_invI := by
  obtain ⟨cl, w, h⟩ := destroyFixtureContacts_frame fixture l b
  rw [h]

@[simp] theorem destroyAllContacts_m_flags (l : List ContactEdge) (b : Body) :
    (destroyAllContacts l b).m_flags = b.m_flags := by
  obtain ⟨cl, w, h⟩ := destroyAllContacts_frame l b
  rw [h]

@[simp] theorem destroyFixtureContacts_m_flags (fixture : Nat) (l : List ContactEdge) (b : Body) :
    (destroyFixtureContacts fixture l b).m_flags = b.m_flags := by
  obtain ⟨cl, w, h⟩ := destroyFixtureContacts_frame fixture l b
  rw [h]

@[simp] theorem destroyAllContacts_m_linearVelocity (l : List ContactEdge) (b : Body) :
    (destroyAllContacts l b).m_linearVelocity = b.m_linearVelocity := by
  obtain ⟨cl, w, h⟩ := destroyAllContacts_frame l b
  rw [h]

@[simp] theorem destroyFixtureContacts_m_linearVelocity (fixture : Nat) (l : List ContactEdge) (b : Body) :
    (destroyFixtureContacts fixture l b).m_linearVelocity = b.m_linearVelocity := by
  obtain ⟨cl, w, h⟩ := destroyFixtureContacts_frame fixture l b
  rw [h]

@[simp] theorem destroyAllContacts_m_angularVelocity (l : List ContactEdge) (b : Body) :
    (destroyAllContacts l b).m_angularVelocity = b.m_angularVelocity := by
  obtain ⟨cl, w, h⟩ := destroyAllContacts_frame l b
  rw [h]

@[simp] theorem destroyFixtureContacts_m_angularVelocity (fixture : Nat) (l : List ContactEdge) (b : Body) :
    (destroyFixtureContacts fixture l b).m_angularVelocity = b.m_angularVelocity := by
  obtain ⟨cl, w, h⟩ := destroyFixtureContacts_frame fixture l b
  rw [h]

@[simp] theorem destroyAllContacts_m_force (l : List ContactEdge) (b : Body) :
    (destroyAllContacts l b).m_force = b.m_force := by
  obtain ⟨cl, w, h⟩ := destroyAllContacts_frame l b
  rw [h]

@[simp] theorem destroyFixtureContacts_m_force (fixture : Nat) (l : List ContactEdge) (b : Body) :
    (destroyFixtureContacts fixture l b).m_force = b.m_force := by
  obtain ⟨cl, w, h⟩ := destroyFixtureContacts_frame fixture l b
  rw [h]

@[simp] theorem destroyAllContacts_m_torque (l : List ContactEdge) (b : Body) :
    (destroyAllContacts l b).m_torque = b.m_torque := by
  obtain ⟨cl, w, h⟩ := destroyAllContacts_frame l b
  rw [h]

@[simp] theorem destroyFixtureContacts_m_torque (fixture : Nat) (l : List ContactEdge) (b : Body) :
    (destroyFixtureContacts fixture l b).m_torque = b.m_torque := by
  obtain ⟨cl, w, h⟩ := destroyFixtureContacts_frame fixture l b
  rw [h]

@[simp] theorem destroyAllContacts_m_sleepTime (l : List ContactEdge) (b : Body) :
    (destroyAllContacts l b).m_sleepTime = b.m_sleepTime := by
  obtain ⟨cl, w, h⟩ := destroyAllContacts_frame l b
  rw [h]

@[simp] theorem destroyFixtureContacts_m_sleepTime (fixture : Nat) (l : List ContactEdge) (b : Body) :
    (destroyFixtureContacts fixture l b).m_sleepTime = b.m_sleepTime := by
  obtain ⟨cl, w, h⟩ := destroyFixtureContacts_frame fixture l b
  rw [h]

@[simp] theorem destroyAllContacts_m_sweep (l : List ContactEdge) (b : Body) :
    (destroyAllContacts l b).m_sweep = b.m_sweep := by
  obtain ⟨cl, w, h⟩ := destroyAllContacts_frame l b
  rw [h]

@[simp] theorem destroyFixtureContacts_m_sweep (fixture : Nat) (l : List ContactEdge) (b : Body) :
    (destroyFixtureContacts fixture l b).m_sweep = b.m_sweep := by
  obtain ⟨cl, w, h⟩ := destroyFixtureContacts_frame fixture l b
  rw [h]

@[simp] theorem destroyAllContacts_m_xf (l : List ContactEdge) (b : Body) :
    (destroyAllContacts l b).m_xf = b.m_xf := by
  obtain ⟨cl, w, h⟩ := destroyAllContacts_frame l b
  rw [h]

@[simp] theorem destroyFixtureContacts_m_xf (fixture : Nat) (l : List ContactEdge) (b : Body) :
    (destroyFixtureContacts fixture l b).m_xf = b.m_xf := by
  obtain ⟨cl, w, h⟩ := destroyFixtureContacts_frame fixture l b
  rw [h]

@[simp] theorem destroyAllContacts_m_fixtureList (l : List ContactEdge) (b : Body) :
    (destroyAllContacts l b).m_fixtureList = b.m_fixtureList := by
  obtain ⟨cl, w, h⟩ := destroyAllContacts_frame l b
  rw [h]

@[simp] theorem destroyFixtureContacts_m_fixtureList (fixture : Nat) (l : List ContactEdge) (b : Body) :
    (destroyFixtureContacts fixture l b).m_fixtureList = b.m_fixtureList := by
  obtain ⟨cl, w, h⟩ := destroyFixtureContacts_frame fixture l b
  rw [h]

@[simp] theorem destroyAllContacts_m_fixtureCount (l : List ContactEdge) (b : Body) :
    (destroyAllContacts l b).m_fixtureCount = b.m_fixtureCount := by
  obtain ⟨cl, w, h⟩ := destroyAllContacts_frame l b
  rw [h]

@[simp] theorem destroyFixtureContacts_m_fixtureCount (fixture : Nat) (l : List ContactEdge) (b : Body) :
    (destroyFixtureContacts fixture l b).m_fixtureCount = b.m_fixtureCount := by
  obtain ⟨cl, w, h⟩ := destroyFixtureContacts_frame fixture l b
  rw [h]

@[simp] theorem destroyAllContacts_m_jointList (l : List ContactEdge) (b : Body) :
    (destroyAllContacts l b).m_jointList = b.m_jointList := by
  obtain ⟨cl, w, h⟩ := destroyAllContacts_frame l b
  rw [h]

@[simp] theorem destroyFixtureContacts_m_jointList (fixture : Nat) (l : List ContactEdge) (b : Body) :
    (destroyFixtureContacts fixture l b).m_jointList = b.m_jointList := by
  obtain ⟨cl, w, h⟩ := destroyFixtureContacts_frame fixture l b
  rw [h]

/-! ## The mass invariant -/

theorem massInv_ResetMassData (b : Body) : massInv b.ResetMassData := by
  constructor
  · intro h
    rw [ResetMassData_type] at h
    rw [ResetMassData_mass b h, ResetMassData_invMass b h]
    split_ifs with hm
    · exact ⟨hm, by positivity⟩
    · exact ⟨one_pos, one_pos⟩
  · intro h
    rw [ResetMassData_type] at h
    exact ResetMassData_nondynamic b h

theorem massInv_ctor (tr : Trig) (bd : BodyDef) (world : World) :
    massInv (Body.ctor tr bd world) := by
  unfold massInv Body.ctor
  constructor
  · intro h; simp at h; simp [h]
  · intro h; simp at h; simp [h]

theorem SetMassData_type (b : Body) (d : MassData) : (b.SetMassData d).m_type = b.m_type := by
  unfold Body.SetMassData
  simp only []
  split_ifs <;> rfl

theorem SetMassData_flags (b : Body) (d : MassData) :
    (b.SetMassData d).m_flags = b.m_flags := by
  unfold Body.SetMassData
  simp only []
  split_ifs <;> rfl

theorem SetMassData_skip (b : Body) (d : MassData)
    (h : b.m_world.IsLocked = true ∨ b.m_type ≠ dynamicBody) : b.SetMassData d = b := by
  unfold Body.SetMassData
  rcases h with h | h
  · simp [h]
  · simp [h]

theorem SetMassData_mass (b : Body) (d : MassData) (hl : b.m_world.IsLocked = false)
    (ht : b.m_type = dynamicBody) :
    (b.SetMassData d).m_mass = if d.mass ≤ 0 then 1 else d.mass := by
  unfold Body.SetMassData
  simp only [hl, ht]
  simp
  split_ifs <;> simp

theorem SetMassData_invMass (b : Body) (d : MassData) (hl : b.m_world.IsLocked = false)
    (ht : b.m_type = dynamicBody) :
    (b.SetMassData d).m_invMass = 1 / (b.SetMassData d).m_mass := by
  rw [SetMassData_mass b d hl ht]
  unfold Body.SetMassData
  simp only [hl, ht]
  simp
  split_ifs <;> simp

theorem SetMassData_localCenter (b : Body) (d : MassData) (hl : b.m_world.IsLocked = false)
    (ht : b.m_type = dynamicBody) :
    (b.SetMassData d).m_sweep.localCenter = d.center := by
  unfold Body.SetMassData
  simp only [hl, ht]
  simp

theorem SetMassData_I (b : Body) (d : MassData) (hl : b.m_world.IsLocked = false)
    (ht : b.m_type = dynamicBody) :
    (b.SetMassData d).m_I =
      if d.I > 0 ∧ b.m_flags.fixedRotationFlag = false then
        d.I - (b.SetMassData d).m_mass * dot d.center d.center
      else 0 := by
  rw [SetMassData_mass b d hl ht]
  unfold Body.SetMassData
  simp only [hl, ht]
  simp
  split_ifs <;> simp_all

theorem SetMassData_invI (b : Body) (d : MassData) (hl : b.m_world.IsLocked = false)
    (ht : b.m_type = dynamicBody) :
    (b.SetMassData d).m_invI =
      if d.I > 0 ∧ b.m_flags.fixedRotationFlag = false then 1 / (b.SetMassData d).m_I
      else 0 := by
  rw [SetMassData_I b d hl ht, SetMassData_mass b d hl ht]
  unfold Body.SetMassData
  simp only [hl, ht]
  simp
  split_ifs <;> simp_all

theorem massInv_SetMassData (b : Body) (d : MassData) (hb : massInv b) :
    massInv (b.SetMassData d) := by
  by_cases h : b.m_world.IsLocked = true ∨ b.m_type ≠ dynamicBody
  · rw [SetMassData_skip b d h]; exact hb
  · push_neg at h
    have hl : b.m_world.IsLocked = false := by simpa using h.1
    refine ⟨fun _ => ?_, fun hn => absurd h.2 (by rwa [SetMassData_type] at hn)⟩
    rw [SetMassData_invMass b d hl h.2, SetMassData_mass b d hl h.2]
    split_ifs with hm
    · exact ⟨one_pos, by norm_num⟩
    · have : 0 < d.mass := lt_of_not_ge hm
      exact ⟨this, by positivity⟩

theorem massInv_congr (a b : Body) (h1 : a.m_type = b.m_type) (h2 : a.m_mass = b.m_mass)
    (h3 : a.m_invMass = b.m_invMass) (h4 : a.m_I = b.m_I) (h5 : a.m_invI = b.m_invI)
    (hb : massInv b) : massInv a := by
  unfold massInv at *
  rw [h1, h2, h3, h4, h5]
  exact hb

/-- What `SetType` does to the mass data when it goes through: the mass data
is the one `ResetMassData` computes for the new type. -/
theorem SetType_massData (co : Collab) (b : Body) (t : BodyType)
    (hl : b.m_world.IsLocked = false) (ht : b.m_type ≠ t) :
    (b.SetType co t).m_type = t ∧
    (b.SetType co t).m_mass = (Body.ResetMassData { b with m_type := t }).m_mass ∧
    (b.SetType co t).m_invMass = (Body.ResetMassData { b with m_type := t }).m_invMass ∧
    (b.SetType co t).m_I = (Body.ResetMassData { b with m_type := t }).m_I ∧
    (b.SetType co t).m_invI = (Body.ResetMassData { b with m_type := t }).m_invI := by
  have hty := ResetMassData_type { b with m_type := t }
  unfold Body.SetType
  simp only [hl, ht, if_false, Bool.false_eq_true]
  generalize Body.ResetMassData { b with m_type := t } = r at hty ⊢
  simp only [Body.withBroadPhase, Body.SynchronizeFixtures, Body.SetAwake, Body.broadPhase]
  simp at hty
  split_ifs <;> simp_all

theorem SetType_skip (co : Collab) (b : Body) (t : BodyType)
    (h : b.m_world.IsLocked = true ∨ b.m_type = t) : b.SetType co t = b := by
  unfold Body.SetType
  rcases h with h | h
  · simp [h]
  · simp [h]

theorem massInv_SetType (co : Collab) (b : Body) (t : BodyType) (hb : massInv b) :
    massInv (b.SetType co t) := by
  by_cases h : b.m_world.IsLocked = true ∨ b.m_type = t
  · rw [SetType_skip co b t h]; exact hb
  · push_neg at h
    have hl : b.m_world.IsLocked = false := by simpa using h.1
    obtain ⟨h1, h2, h3, h4, h5⟩ := SetType_massData co b t hl h.2
    refine massInv_congr _ _ ?_ h2 h3 h4 h5 (massInv_ResetMassData _)
    rw [h1, ResetMassData_type]

theorem massInv_CreateFixture (co : Collab) (b : Body) (d : FixtureDef) (memory : Nat)
    (hb : massInv b) : massInv (b.CreateFixture co d memory).1 := by
  unfold Body.CreateFixture
  simp only [Body.withBroadPhase, Body.broadPhase, Fixture.Create]
  split_ifs
  · exact hb
  · exact massInv_congr _ (Body.ResetMassData _) rfl rfl rfl rfl rfl (massInv_ResetMassData _)
  · exact hb
  · exact massInv_congr _ (Body.ResetMassData _) rfl rfl rfl rfl rfl (massInv_ResetMassData _)
  · exact hb

theorem massInv_DestroyFixture (co : Collab) (b : Body) (fixture : Fixture)
    (hb : massInv b) : massInv (b.DestroyFixture co fixture) := by
  unfold Body.DestroyFixture
  simp only []
  split_ifs
  · exact hb
  · exact massInv_ResetMassData _
  · exact massInv_ResetMassData _

theorem massInv_SetFixedRotation (b : Body) (flag : Bool) (hb : massInv b) :
    massInv (b.SetFixedRotation flag) := by
  unfold Body.SetFixedRotation
  simp only []
  split_ifs
  · exact hb
  · exact massInv_ResetMassData _
  · exact massInv_ResetMassData _

theorem massInv_apply (co : Collab) (b : Body) (o : Op) (ho : o.isMassOp = true)
    (hb : massInv b) : massInv (o.apply co b) := by
  cases o <;> simp only [Op.isMassOp] at ho <;> try exact absurd ho (by decide)
  · exact massInv_ResetMassData b
  · exact massInv_SetMassData b _ hb
  · exact massInv_SetType co b _ hb
  · exact massInv_CreateFixture co b _ _ hb
  · exact massInv_DestroyFixture co b _ hb
  · exact massInv_SetFixedRotation b _ hb
  · exact hb

theorem massInv_run (co : Collab) (ops : List Op) (b : Body)
    (hops : ∀ o ∈ ops, o.isMassOp = true) (hb : massInv b) : massInv (run co b ops) := by
  induction ops generalizing b with
  | nil => exact hb
  | cons o ops ih =>
    have h1 : o.isMassOp = true := hops o (List.mem_cons_self _ _)
    have h2 : ∀ p ∈ ops, p.isMassOp = true := fun p hp => hops p (List.mem_cons_of_mem _ hp)
    exact ih (o.apply co b) h2 (massInv_apply co b o h1 hb)

/-! ## Type and lock through the operations -/

@[simp] theorem destroyAllContacts_worldFlags (l : List ContactEdge) (b : Body) :
    (destroyAllContacts l b).m_world.m_flags = b.m_world.m_flags := by
  induction l generalizing b with
  | nil => rfl
  | cons e l ih => rw [destroyAllContacts, ih]; rfl

@[simp] theorem destroyFixtureContacts_worldFlags (fixture : Nat) (l : List ContactEdge)
    (b : Body) : (destroyFixtureContacts fixture l b).m_world.m_flags = b.m_world.m_flags := by
  induction l generalizing b with
  | nil => rfl
  | cons e l ih =>
    by_cases hc : fixture = e.contact.m_fixtureA ∨ fixture = e.contact.m_fixtureB
    · rw [destroyFixtureContacts]; simp only [hc, if_true]; rw [ih]; rfl
    · rw [destroyFixtureContacts]; simp only [hc, if_false]; rw [ih]

theorem ResetMassData_world (b : Body) : b.ResetMassData.m_world = b.m_world := by
  unfold Body.ResetMassData
  simp only [accumulateMass_eq]
  split_ifs <;> rfl

theorem SetMassData_world (b : Body) (d : MassData) :
    (b.SetMassData d).m_world = b.m_world := by
  unfold Body.SetMassData
  simp only []
  split_ifs <;> rfl

theorem SetFixedRotation_type (b : Body) (flag : Bool) :
    (b.SetFixedRotation flag).m_type = b.m_type := by
  unfold Body.SetFixedRotation
  simp only []
  split_ifs <;> simp [ResetMassData_type]

theorem SetFixedRotation_world (b : Body) (flag : Bool) :
    (b.SetFixedRotation flag).m_world = b.m_world := by
  unfold Body.SetFixedRotation
  simp only []
  split_ifs <;> simp [ResetMassData_world]

theorem SetType_type (co : Collab) (b : Body) (t : BodyType) :
    (b.SetType co t).m_type = if b.m_world.IsLocked = true then b.m_type else t := by
  by_cases hl : b.m_world.IsLocked = true
  · rw [SetType_skip co b t (Or.inl hl)]; simp [hl]
  · by_cases ht : b.m_type = t
    · rw [SetType_skip co b t (Or.inr ht)]; simp [hl, ht]
    · rw [(SetType_massData co b t (by simpa using hl) ht).1]; simp [hl]

theorem SetType_locked (co : Collab) (b : Body) (t : BodyType) :
    (b.SetType co t).m_world.IsLocked = b.m_world.IsLocked := by
  unfold Body.SetType World.IsLocked
  simp only [Body.withBroadPhase, Body.SynchronizeFixtures, Body.SetAwake, Body.broadPhase]
  split_ifs <;> simp [ResetMassData_world]

theorem CreateFixture_type (co : Collab) (b : Body) (d : FixtureDef) (memory : Nat) :
    (b.CreateFixture co d memory).1.m_type = b.m_type := by
  unfold Body.CreateFixture
  simp only [Body.withBroadPhase, Body.broadPhase]
  split_ifs <;> simp [ResetMassData_type]

theorem CreateFixture_locked (co : Collab) (b : Body) (d : FixtureDef) (memory : Nat) :
    (b.CreateFixture co d memory).1.m_world.IsLocked = b.m_world.IsLocked := by
  unfold Body.CreateFixture World.IsLocked
  simp only [Body.withBroadPhase, Body.broadPhase]
  split_ifs <;> simp [ResetMassData_world]

theorem DestroyFixture_type (co : Collab) (b : Body) (fixture : Fixture) :
    (b.DestroyFixture co fixture).m_type = b.m_type := by
  unfold Body.DestroyFixture
  simp only [Body.withBroadPhase, Body.broadPhase]
  split_ifs <;> simp [ResetMassData_type]

theorem DestroyFixture_locked (co : Collab) (b : Body) (fixture : Fixture) :
    (b.DestroyFixture co fixture).m_world.IsLocked = b.m_world.IsLocked := by
  unfold Body.DestroyFixture World.IsLocked
  simp only [Body.withBroadPhase, Body.broadPhase]
  split_ifs <;> simp [ResetMassData_world]

theorem ctor_type (tr : Trig) (bd : BodyDef) (world : World) :
    (Body.ctor tr bd world).m_type = bd.type := rfl

theorem ctor_world (tr : Trig) (bd : BodyDef) (world : World) :
    (Body.ctor tr bd world).m_world = world := rfl

/-! ## The `Apply*` operations -/

/-- The early returns of the five `Apply*` operations. -/
theorem Apply_skip (b : Body) (force point impulse : Vec2) (torque angularImpulse : ℚ)
    (wake : Bool)
    (h : b.m_type ≠ dynamicBody ∨
      (b.m_type = dynamicBody ∧ b.m_flags.awakeFlag = false ∧ wake = false)) :
    b.ApplyForce force point wake = b ∧
    b.ApplyForceToCenter force wake = b ∧
    b.ApplyTorque torque wake = b ∧
    b.ApplyLinearImpulse impulse point wake = b ∧
    b.ApplyAngularImpulse angularImpulse wake = b := by
  unfold Body.ApplyForce Body.ApplyForceToCenter Body.ApplyTorque Body.ApplyLinearImpulse
    Body.ApplyAngularImpulse
  rcases h with h | ⟨h1, h2, h3⟩
  · simp [h]
  · simp [h1, h2, h3]

/-- The accumulating paths of the five `Apply*` operations. -/
theorem Apply_effect (b : Body) (f p j : Vec2) (t a : ℚ) (wake : Bool)
    (ht : b.m_type = dynamicBody) (hw : b.m_flags.awakeFlag = true ∨ wake = true) :
    ((b.ApplyForce f p wake).m_force = b.m_force + f ∧
      (b.ApplyForce f p wake).m_torque = b.m_torque + Cross2v (p - b.m_sweep.c) f ∧
      (b.ApplyForce f p wake).IsAwake = true) ∧
    ((b.ApplyForceToCenter f wake).m_force = b.m_force + f ∧
      (b.ApplyForceToCenter f wake).m_torque = b.m_torque ∧
      (b.ApplyForceToCenter f wake).IsAwake = true) ∧
    ((b.ApplyTorque t wake).m_torque = b.m_torque + t ∧
      (b.ApplyTorque t wake).IsAwake = true) ∧
    ((b.ApplyLinearImpulse j p wake).m_linearVelocity = b.m_linearVelocity + b.m_invMass * j ∧
      (b.ApplyLinearImpulse j p wake).m_angularVelocity =
        b.m_angularVelocity + b.m_invI * Cross2v (p - b.m_sweep.c) j ∧
      (b.ApplyLinearImpulse j p wake).IsAwake = true) ∧
    ((b.ApplyAngularImpulse a wake).m_angularVelocity = b.m_angularVelocity + b.m_invI * a ∧
      (b.ApplyAngularImpulse a wake).IsAwake = true) := by
  unfold Body.ApplyForce Body.ApplyForceToCenter Body.ApplyTorque Body.ApplyLinearImpulse
    Body.ApplyAngularImpulse Body.IsAwake Body.SetAwake
  by_cases hawake : b.m_flags.awakeFlag = true
  · simp [ht, hawake]
  · have hw2 : wake = true := hw.resolve_left hawake
    have hf : b.m_flags.awakeFlag = false := by simpa using hawake
    simp [ht, hf, hw2]

/-! ## The sleep invariant -/

/-- What `ResetMassData` leaves alone: angular velocity, force and torque. -/
theorem ResetMassData_motion (b : Body) :
    b.ResetMassData.m_angularVelocity = b.m_angularVelocity ∧
    b.ResetMassData.m_force = b.m_force ∧
    b.ResetMassData.m_torque = b.m_torque := by
  unfold Body.ResetMassData
  simp only [accumulateMass_eq]
  refine ⟨?_, ?_, ?_⟩ <;> split_ifs <;> rfl

/-- What `SetMassData` leaves alone: angular velocity, force and torque. -/
theorem SetMassData_motion (b : Body) (d : MassData) :
    (b.SetMassData d).m_angularVelocity = b.m_angularVelocity ∧
    (b.SetMassData d).m_force = b.m_force ∧
    (b.SetMassData d).m_torque = b.m_torque := by
  unfold Body.SetMassData
  simp only []
  refine ⟨?_, ?_, ?_⟩ <;> split_ifs <;> rfl

theorem SetType_awake (co : Collab) (b : Body) (t : BodyType)
    (hl : b.m_world.IsLocked = false) (ht : b.m_type ≠ t) :
    (b.SetType co t).m_flags.awakeFlag = true := by
  unfold Body.SetType
  simp only [hl, ht, if_false, Bool.false_eq_true]
  simp only [Body.withBroadPhase, Body.SynchronizeFixtures, Body.SetAwake, Body.broadPhase]
  split_ifs <;> simp_all

/-- Every `Apply*` operation either returns the state unchanged or returns a
body that is awake. -/
theorem Apply_same_or_awake (b : Body) (f p : Vec2) (t : ℚ) (wake : Bool) :
    (b.ApplyForce f p wake = b ∨ (b.ApplyForce f p wake).m_flags.awakeFlag = true) ∧
    (b.ApplyForceToCenter f wake = b ∨
      (b.ApplyForceToCenter f wake).m_flags.awakeFlag = true) ∧
    (b.ApplyTorque t wake = b ∨ (b.ApplyTorque t wake).m_flags.awakeFlag = true) ∧
    (b.ApplyLinearImpulse f p wake = b ∨
      (b.ApplyLinearImpulse f p wake).m_flags.awakeFlag = true) ∧
    (b.ApplyAngularImpulse t wake = b ∨
      (b.ApplyAngularImpulse t wake).m_flags.awakeFlag = true) := by
  by_cases ht : b.m_type = dynamicBody
  · by_cases hw : b.m_flags.awakeFlag = true ∨ wake = true
    · obtain ⟨h1, h2, h3, h4, h5⟩ := Apply_effect b f p f t t wake ht hw
      exact ⟨Or.inr h1.2.2, Or.inr h2.2.2, Or.inr h3.2, Or.inr h4.2.2, Or.inr h5.2⟩
    · push_neg at hw
      obtain ⟨h1, h2, h3, h4, h5⟩ := Apply_skip b f p f t t wake
        (Or.inr ⟨ht, by simpa using hw.1, by simpa using hw.2⟩)
      exact ⟨Or.inl h1, Or.inl h2, Or.inl h3, Or.inl h4, Or.inl h5⟩
  · obtain ⟨h1, h2, h3, h4, h5⟩ := Apply_skip b f p f t t wake (Or.inl ht)
    exact ⟨Or.inl h1, Or.inl h2, Or.inl h3, Or.inl h4, Or.inl h5⟩

theorem forceInv_of_eq (a b : Body) (h1 : a.m_flags.awakeFlag = b.m_flags.awakeFlag)
    (h2 : a.m_force = b.m_force) (h3 : a.m_torque = b.m_torque) (hb : forceInv b) :
    forceInv a := by
  unfold forceInv at *
  rw [h1, h2, h3]
  exact hb

theorem forceInv_of_same_or_awake (b c : Body) (h : c = b ∨ c.m_flags.awakeFlag = true)
    (hb : forceInv b) : forceInv c := by
  rcases h with h | h
  · rw [h]; exact hb
  · unfold forceInv
    rw [h]
    exact fun hf => absurd hf (by decide)

theorem forceInv_ResetMassData (b : Body) (hb : forceInv b) : forceInv b.ResetMassData :=
  forceInv_of_eq _ _ (by rw [ResetMassData_flags]) (ResetMassData_motion b).2.1
    (ResetMassData_motion b).2.2 hb

theorem forceInv_SetMassData (b : Body) (d : MassData) (hb : forceInv b) :
    forceInv (b.SetMassData d) :=
  forceInv_of_eq _ _ (by rw [SetMassData_flags]) (SetMassData_motion b d).2.1
    (SetMassData_motion b d).2.2 hb

theorem forceInv_SetType (co : Collab) (b : Body) (t : BodyType) (hb : forceInv b) :
    forceInv (b.SetType co t) := by
  by_cases h : b.m_world.IsLocked = true ∨ b.m_type = t
  · rw [SetType_skip co b t h]; exact hb
  · push_neg at h
    exact forceInv_of_same_or_awake b _
      (Or.inr (SetType_awake co b t (by simpa using h.1) h.2)) hb

theorem forceInv_SetFixedRotation (b : Body) (flag : Bool) (hb : forceInv b) :
    forceInv (b.SetFixedRotation flag) := by
  unfold Body.SetFixedRotation
  simp only []
  split_ifs
  · exact hb
  · exact forceInv_ResetMassData _ hb
  · exact forceInv_ResetMassData _ hb

theorem forceInv_SetAwake (b : Body) (flag : Bool) (hb : forceInv b) :
    forceInv (b.SetAwake flag) := by
  revert hb
  unfold Body.SetAwake forceInv
  cases flag
  · simp
  · by_cases ha : b.m_flags.awakeFlag = false
    · simp [ha]
    · simp [ha]

/-- The velocity setters write no force and no torque, and clear the awake
flag in no case: whether the test `dot(v, v) > 0` succeeds or not, the force
part of the sleep invariant is kept. -/
theorem forceInv_SetLinearVelocity (b : Body) (v : Vec2) (hb : forceInv b) :
    forceInv (b.SetLinearVelocity v) := by
  revert hb
  unfold Body.SetLinearVelocity Body.SetAwake forceInv
  by_cases hs : b.m_type = staticBody
  · simp [hs]
  · by_cases hv : dot v v > 0
    · by_cases ha : b.m_flags.awakeFlag = false
      · simp [hs, hv, ha]
      · simp [hs, hv, ha]
    · simp only [hs, hv, if_false]
      exact id

theorem forceInv_SetAngularVelocity (b : Body) (w : ℚ) (hb : forceInv b) :
    forceInv (b.SetAngularVelocity w) := by
  revert hb
  unfold Body.SetAngularVelocity Body.SetAwake forceInv
  by_cases hs : b.m_type = staticBody
  · simp [hs]
  · by_cases hv : w * w > 0
    · by_cases ha : b.m_flags.awakeFlag = false
      · simp [hs, hv, ha]
      · simp [hs, hv, ha]
    · simp only [hs, hv, if_false]
      exact id

theorem forceInv_SetSleepingAllowed (b : Body) (flag : Bool) (hb : forceInv b) :
    forceInv (b.SetSleepingAllowed flag) := by
  revert hb
  unfold Body.SetSleepingAllowed Body.SetAwake forceInv
  cases flag
  · by_cases ha : b.m_flags.awakeFlag = false
    · simp [ha]
    · simp [ha]
  · simp

theorem forceInv_apply (co : Collab) (b : Body) (o : Op) (ho : o.isSleepOp = true)
    (hb : forceInv b) : forceInv (o.apply co b) := by
  cases o <;> simp only [Op.isSleepOp] at ho <;> try exact absurd ho (by decide)
  · exact forceInv_ResetMassData b hb
  · exact forceInv_SetMassData b _ hb
  · exact forceInv_SetType co b _ hb
  · exact forceInv_SetFixedRotation b _ hb
  · exact forceInv_SetAwake b _ hb
  · exact forceInv_SetLinearVelocity b _ hb
  · exact forceInv_SetAngularVelocity b _ hb
  · exact forceInv_of_same_or_awake b _ (Apply_same_or_awake b _ _ 0 _).1 hb
  · exact forceInv_of_same_or_awake b _ (Apply_same_or_awake b _ ⟨0, 0⟩ 0 _).2.1 hb
  · exact forceInv_of_same_or_awake b _ (Apply_same_or_awake b ⟨0, 0⟩ ⟨0, 0⟩ _ _).2.2.1 hb
  · exact forceInv_of_same_or_awake b _ (Apply_same_or_awake b _ _ 0 _).2.2.2.1 hb
  · exact forceInv_of_same_or_awake b _
      (Apply_same_or_awake b ⟨0, 0⟩ ⟨0, 0⟩ _ _).2.2.2.2 hb
  · exact forceInv_SetSleepingAllowed b _ hb
  · exact hb

theorem forceInv_run (co : Collab) (ops : List Op) (b : Body)
    (hops : ∀ o ∈ ops, o.isSleepOp = true) (hb : forceInv b) :
    forceInv (run co b ops) := by
  induction ops generalizing b with
  | nil => exact hb
  | cons o ops ih =>
    exact ih (o.apply co b) (fun p hp => hops p (List.mem_cons_of_mem _ hp))
      (forceInv_apply co b o (hops o (List.mem_cons_self _ _)) hb)

theorem ResetMassData_lists (b : Body) :
    b.ResetMassData.m_fixtureList = b.m_fixtureList ∧
    b.ResetMassData.m_fixtureCount = b.m_fixtureCount ∧
    b.ResetMassData.m_contactList = b.m_contactList ∧
    b.ResetMassData.m_jointList = b.m_jointList := by
  unfold Body.ResetMassData
  simp only [accumulateMass_eq]
  refine ⟨?_, ?_, ?_, ?_⟩ <;> split_ifs <;> rfl

theorem touchProxies_moveBuffer (ps : List Nat) (bp : BroadPhase) :
    touchProxies ps bp = { bp with m_moveBuffer := bp.m_moveBuffer ++ ps } := by
  induction ps generalizing bp with
  | nil => simp [touchProxies]
  | cons p ps ih => simp [touchProxies, ih, BroadPhase.TouchProxy]

theorem touchFixtures_touched (fs : List Fixture) (bp : BroadPhase) :
    (touchFixtures fs bp).m_proxies = bp.m_proxies ∧
    (∀ p ∈ bp.m_moveBuffer, p ∈ (touchFixtures fs bp).m_moveBuffer) ∧
    (∀ f ∈ fs, ∀ p ∈ f.m_proxies, p ∈ (touchFixtures fs bp).m_moveBuffer) := by
  induction fs generalizing bp with
  | nil => simp [touchFixtures]
  | cons f fs ih =>
    obtain ⟨h1, h2, h3⟩ := ih (touchProxies f.m_proxies bp)
    rw [touchFixtures]
    refine ⟨?_, ?_, ?_⟩
    · rw [h1, touchProxies_moveBuffer]
    · intro p hp
      apply h2
      rw [touchProxies_moveBuffer]
      exact List.mem_append_left _ hp
    · intro g hg p hp
      rcases List.mem_cons.1 hg with hg | hg
      · apply h2
        rw [touchProxies_moveBuffer]
        rw [hg] at hp
        exact List.mem_append_right _ hp
      · exact h3 g hg p hp

/-- What `SetType` does besides the mass data when it goes through. -/
theorem SetType_rest (co : Collab) (b : Body) (t : BodyType)
    (hl : b.m_world.IsLocked = false) (ht : b.m_type ≠ t) :
    (b.SetType co t).m_sweep.localCenter =
      (Body.ResetMassData { b with m_type := t }).m_sweep.localCenter ∧
    (b.SetType co t).m_force = ⟨0, 0⟩ ∧
    (b.SetType co t).m_torque = 0 ∧
    (b.SetType co t).m_contactList = [] ∧
    (b.SetType co t).m_fixtureList = b.m_fixtureList ∧
    (t = staticBody → (b.SetType co t).m_linearVelocity = ⟨0, 0⟩ ∧
      (b.SetType co t).m_angularVelocity = 0) ∧
    (∃ bp, (b.SetType co t).m_world.m_contactManager.m_broadPhase =
      touchFixtures b.m_fixtureList bp) := by
  have hty := ResetMassData_type { b with m_type := t }
  have hls := (ResetMassData_lists { b with m_type := t }).1
  unfold Body.SetType
  simp only [hl, ht, if_false, Bool.false_eq_true]
  generalize Body.ResetMassData { b with m_type := t } = r at hty hls ⊢
  simp only [Body.withBroadPhase, Body.SynchronizeFixtures, Body.SetAwake, Body.broadPhase]
  simp at hty hls
  split_ifs <;> simp_all

/-! ## The fixed-rotation invariant -/

theorem fixedInv_congr (a b : Body)
    (h1 : a.m_flags.fixedRotationFlag = b.m_flags.fixedRotationFlag) (h2 : a.m_I = b.m_I)
    (h3 : a.m_invI = b.m_invI) (hb : fixedInv b) : fixedInv a := by
  unfold fixedInv at *
  rw [h1, h2, h3]
  exact hb

theorem fixedInv_ResetMassData (b : Body) : fixedInv b.ResetMassData := by
  intro h
  rw [ResetMassData_flags] at h
  by_cases ht : b.m_type = dynamicBody
  · rw [ResetMassData_invI b ht, ResetMassData_I b ht]
    simp [h]
  · exact (ResetMassData_nondynamic b ht).2.2

theorem fixedInv_ctor (tr : Trig) (bd : BodyDef) (world : World) :
    fixedInv (Body.ctor tr bd world) := fun _ => ⟨rfl, rfl⟩

theorem fixedInv_SetMassData (b : Body) (d : MassData) (hb : fixedInv b) :
    fixedInv (b.SetMassData d) := by
  by_cases h : b.m_world.IsLocked = true ∨ b.m_type ≠ dynamicBody
  · rw [SetMassData_skip b d h]; exact hb
  · push_neg at h
    have hl : b.m_world.IsLocked = false := by simpa using h.1
    intro hf
    rw [SetMassData_flags] at hf
    rw [SetMassData_invI b d hl h.2, SetMassData_I b d hl h.2]
    simp [hf]

theorem SetType_fixedRotationFlag (co : Collab) (b : Body) (t : BodyType) :
    (b.SetType co t).m_flags.fixedRotationFlag = b.m_flags.fixedRotationFlag := by
  by_cases h : b.m_world.IsLocked = true ∨ b.m_type = t
  · rw [SetType_skip co b t h]
  · push_neg at h
    have hl : b.m_world.IsLocked = false := by simpa using h.1
    have ht := h.2
    have hfl := ResetMassData_flags { b with m_type := t }
    unfold Body.SetType
    simp only [hl, ht, if_false, Bool.false_eq_true]
    generalize Body.ResetMassData { b with m_type := t } = r at hfl ⊢
    simp only [Body.withBroadPhase, Body.SynchronizeFixtures, Body.SetAwake, Body.broadPhase]
    simp at hfl
    split_ifs <;> simp_all

theorem fixedInv_SetType (co : Collab) (b : Body) (t : BodyType) (hb : fixedInv b) :
    fixedInv (b.SetType co t) := by
  by_cases h : b.m_world.IsLocked = true ∨ b.m_type = t
  · rw [SetType_skip co b t h]; exact hb
  · push_neg at h
    have hl : b.m_world.IsLocked = false := by simpa using h.1
    obtain ⟨_, _, _, h4, h5⟩ := SetType_massData co b t hl h.2
    refine fixedInv_congr _ _ ?_ h4 h5 (fixedInv_ResetMassData _)
    rw [SetType_fixedRotationFlag, ResetMassData_flags]

theorem fixedInv_CreateFixture (co : Collab) (b : Body) (d : FixtureDef) (memory : Nat)
    (hb : fixedInv b) : fixedInv (b.CreateFixture co d memory).1 := by
  unfold Body.CreateFixture
  simp only [Body.withBroadPhase, Body.broadPhase, Fixture.Create]
  split_ifs
  · exact hb
  · exact fixedInv_congr _ (Body.ResetMassData _) rfl rfl rfl (fixedInv_ResetMassData _)
  · exact hb
  · exact fixedInv_congr _ (Body.ResetMassData _) rfl rfl rfl (fixedInv_ResetMassData _)
  · exact hb

theorem fixedInv_DestroyFixture (co : Collab) (b : Body) (fixture : Fixture)
    (hb : fixedInv b) : fixedInv (b.DestroyFixture co fixture) := by
  unfold Body.DestroyFixture
  simp only []
  split_ifs
  · exact hb
  · exact fixedInv_ResetMassData _
  · exact fixedInv_ResetMassData _

theorem fixedInv_SetFixedRotation (b : Body) (flag : Bool) (hb : fixedInv b) :
    fixedInv (b.SetFixedRotation flag) := by
  unfold Body.SetFixedRotation
  simp only []
  split_ifs
  · exact hb
  · exact fixedInv_ResetMassData _
  · exact fixedInv_ResetMassData _

theorem fixedInv_apply (co : Collab) (b : Body) (o : Op) (ho : o.isMassOp = true)
    (hb : fixedInv b) : fixedInv (o.apply co b) := by
  cases o <;> simp only [Op.isMassOp] at ho <;> try exact absurd ho (by decide)
  · exact fixedInv_ResetMassData b
  · exact fixedInv_SetMassData b _ hb
  · exact fixedInv_SetType co b _ hb
  · exact fixedInv_CreateFixture co b _ _ hb
  · exact fixedInv_DestroyFixture co b _ hb
  · exact fixedInv_SetFixedRotation b _ hb
  · exact hb

theorem fixedInv_run (co : Collab) (ops : List Op) (b : Body)
    (hops : ∀ o ∈ ops, o.isMassOp = true) (hb : fixedInv b) : fixedInv (run co b ops) := by
  induction ops generalizing b with
  | nil => exact hb
  | cons o ops ih =>
    have h1 : o.isMassOp = true := hops o (List.mem_cons_self _ _)
    have h2 : ∀ p ∈ ops, p.isMassOp = true := fun p hp => hops p (List.mem_cons_of_mem _ hp)
    exact ih (o.apply co b) h2 (fixedInv_apply co b o h1 hb)

theorem SetFixedRotation_changed (b : Body) (flag : Bool)
    (h : b.m_flags.fixedRotationFlag ≠ flag) :
    (b.SetFixedRotation flag).m_flags.fixedRotationFlag = flag ∧
    (b.SetFixedRotation flag).m_angularVelocity = 0 := by
  unfold Body.SetFixedRotation
  simp only [h, if_false]
  cases flag
  · simp [ResetMassData_flags, (ResetMassData_motion _).1]
  · simp [ResetMassData_flags, (ResetMassData_motion _).1]

theorem CreateFixture_new (co : Collab) (b : Body) (d : FixtureDef) (memory : Nat)
    (hl : b.m_world.IsLocked = false) :
    ∃ ps, (b.CreateFixture co d memory).1.m_fixtureList =
      { Fixture.Create memory d with m_proxies := ps } :: b.m_fixtureList := by
  unfold Body.CreateFixture
  simp only [hl, if_false, Bool.false_eq_true, Body.withBroadPhase, Body.broadPhase]
  split_ifs <;> first | exact ⟨_, rfl⟩ | exact ⟨_, (ResetMassData_lists _).1.trans rfl⟩

theorem CreateFixture_flags (co : Collab) (b : Body) (d : FixtureDef) (memory : Nat) :
    (b.CreateFixture co d memory).1.m_flags = b.m_flags ∧
    (b.CreateFixture co d memory).1.m_angularVelocity = b.m_angularVelocity := by
  unfold Body.CreateFixture
  simp only [Body.withBroadPhase, Body.broadPhase]
  split_ifs <;> simp [ResetMassData_flags, (ResetMassData_motion _).1]

/-- A type change to kinematic or dynamic keeps the angular velocity and the
fixedRotation flag. -/
theorem SetType_angularVelocity (co : Collab) (b : Body) (t : BodyType)
    (hs : t ≠ staticBody) :
    (b.SetType co t).m_angularVelocity = b.m_angularVelocity := by
  have hty := ResetMassData_type { b with m_type := t }
  have hm := (ResetMassData_motion { b with m_type := t }).1
  unfold Body.SetType
  simp only []
  generalize Body.ResetMassData { b with m_type := t } = r at hty hm ⊢
  simp only [Body.withBroadPhase, Body.SynchronizeFixtures, Body.SetAwake, Body.broadPhase]
  simp at hty hm
  split_ifs <;> simp_all

theorem SetFixedRotation_flag (b : Body) (flag : Bool) :
    (b.SetFixedRotation flag).m_flags.fixedRotationFlag = flag := by
  by_cases h : b.m_flags.fixedRotationFlag = flag
  · unfold Body.SetFixedRotation
    simp only [h, if_true]
  · exact (SetFixedRotation_changed b flag h).1

theorem SetFixedRotation_fixtureList (b : Body) (flag : Bool) :
    (b.SetFixedRotation flag).m_fixtureList = b.m_fixtureList := by
  unfold Body.SetFixedRotation
  simp only []
  split_ifs <;> simp [(ResetMassData_lists _).1]

/-! ## Fixture bookkeeping -/

theorem unlinkFixture_split (fixture : Fixture) (l : List Fixture) (hmem : fixture ∈ l)
    (hnd : (l.map Fixture.addr).Nodup) :
    ∃ l1 l2, l = l1 ++ fixture :: l2 ∧ unlinkFixture fixture.addr l = l1 ++ l2 := by
  induction l with
  | nil => cases hmem
  | cons g l ih =>
    rw [List.map_cons, List.nodup_cons] at hnd
    by_cases hg : g.addr = fixture.addr
    · rcases List.mem_cons.1 hmem with h | h
      · refine ⟨[], l, by rw [h]; rfl, ?_⟩
        simp [unlinkFixture, hg]
      · exfalso
        apply hnd.1
        rw [hg]
        exact List.mem_map_of_mem _ h
    · rcases List.mem_cons.1 hmem with h | h
      · exact absurd (by rw [h]) hg
      · obtain ⟨l1, l2, h1, h2⟩ := ih h hnd.2
        refine ⟨g :: l1, l2, by rw [h1]; rfl, ?_⟩
        simp [unlinkFixture, hg, h2]

theorem survivesDestroy_cons (fixture : Nat) (e2 : ContactEdge) (l : List ContactEdge)
    (addr : Nat) :
    survivesDestroy fixture (e2 :: l) addr =
      ((!(e2.contact.refersTo fixture) || decide (addr ≠ e2.contact.addr)) &&
        survivesDestroy fixture l addr) := by
  simp [survivesDestroy]

/-- The contacts `destroyFixtureContacts` leaves in the body's list: those
whose address is not the address of an edge of `l` that refers to the fixture. -/
theorem destroyFixtureContacts_contactList (fixture : Nat) (l : List ContactEdge) (b : Body) :
    (destroyFixtureContacts fixture l b).m_contactList =
      b.m_contactList.filter (fun e => survivesDestroy fixture l e.contact.addr) := by
  induction l generalizing b with
  | nil => simp [destroyFixtureContacts, survivesDestroy]
  | cons e2 l ih =>
    by_cases hc : fixture = e2.contact.m_fixtureA ∨ fixture = e2.contact.m_fixtureB
    · have hr : e2.contact.refersTo fixture = true := by simp [Contact.refersTo, hc]
      rw [destroyFixtureContacts]
      simp only [hc, if_true]
      rw [ih]
      simp only [ContactManager_Destroy, List.filter_filter]
      apply List.filter_congr
      intro e _
      rw [survivesDestroy_cons, hr, Bool.and_comm]
      simp
    · have hr : e2.contact.refersTo fixture = false := by simp [Contact.refersTo, hc]
      rw [destroyFixtureContacts]
      simp only [hc, if_false]
      rw [ih]
      apply List.filter_congr
      intro e _
      rw [survivesDestroy_cons, hr]
      simp

/-- The contacts `destroyFixtureContacts` leaves in the world's list. -/
theorem destroyFixtureContacts_worldContacts (fixture : Nat) (l : List ContactEdge) (b : Body) :
    (destroyFixtureContacts fixture l b).m_world.m_contactManager.m_contactList =
      b.m_world.m_contactManager.m_contactList.filter
        (fun k => survivesDestroy fixture l k.addr) := by
  induction l generalizing b with
  | nil => simp [destroyFixtureContacts, survivesDestroy]
  | cons e2 l ih =>
    by_cases hc : fixture = e2.contact.m_fixtureA ∨ fixture = e2.contact.m_fixtureB
    · have hr : e2.contact.refersTo fixture = true := by simp [Contact.refersTo, hc]
      rw [destroyFixtureContacts]
      simp only [hc, if_true]
      rw [ih]
      simp only [ContactManager_Destroy, List.filter_filter]
      apply List.filter_congr
      intro e _
      rw [survivesDestroy_cons, hr, Bool.and_comm]
      simp
    · have hr : e2.contact.refersTo fixture = false := by simp [Contact.refersTo, hc]
      rw [destroyFixtureContacts]
      simp only [hc, if_false]
      rw [ih]
      apply List.filter_congr
      intro e _
      rw [survivesDestroy_cons, hr]
      simp

/-- On a well-formed contact list (one contact per address) an edge survives
exactly when its contact does not refer to the fixture. -/
theorem survivesDestroy_iff (fixture : Nat) (l : List ContactEdge)
    (hw : ∀ e1 ∈ l, ∀ e2 ∈ l, e1.contact.addr = e2.contact.addr → e1.contact = e2.contact)
    (e : ContactEdge) (he : e ∈ l) :
    survivesDestroy fixture l e.contact.addr = !(e.contact.refersTo fixture) := by
  cases hr : e.contact.refersTo fixture
  · apply List.all_eq_true.2
    intro e2 he2
    cases hr2 : e2.contact.refersTo fixture
    · simp
    · have hne : e.contact.addr ≠ e2.contact.addr := by
        intro heq
        rw [hw e he e2 he2 heq, hr2] at hr
        cases hr
      simp [hne]
  · cases hs : survivesDestroy fixture l e.contact.addr
    · rfl
    · have := List.all_eq_true.1 hs e he
      simp [hr] at this

/-- On a well-formed contact list the contacts `DestroyFixture` leaves in
the body's list are exactly those that do not refer to the fixture. -/
theorem destroyFixtureContacts_exact (fixture : Nat) (b : Body)
    (hw : ∀ e1 ∈ b.m_contactList, ∀ e2 ∈ b.m_contactList,
      e1.contact.addr = e2.contact.addr → e1.contact = e2.contact) :
    (destroyFixtureContacts fixture b.m_contactList b).m_contactList =
      b.m_contactList.filter (fun e => !(e.contact.refersTo fixture)) := by
  rw [destroyFixtureContacts_contactList]
  apply List.filter_congr
  intro e he
  exact survivesDestroy_iff fixture b.m_contactList hw e he

/-- What `DestroyFixture` does to the lists and the count in an unlocked
world. -/
theorem DestroyFixture_lists (co : Collab) (b : Body) (fixture : Fixture)
    (hl : b.m_world.IsLocked = false) :
    (b.DestroyFixture co fixture).m_fixtureList = unlinkFixture fixture.addr b.m_fixtureList ∧
    (b.DestroyFixture co fixture).m_fixtureCount = b.m_fixtureCount - 1 ∧
    (b.DestroyFixture co fixture).m_contactList =
      (destroyFixtureContacts fixture.addr b.m_contactList b).m_contactList := by
  have key : ∀ fl : List Fixture,
      (destroyFixtureContacts fixture.addr b.m_contactList
        { b with m_fixtureList := fl }).m_contactList =
      (destroyFixtureContacts fixture.addr b.m_contactList b).m_contactList := by
    intro fl
    rw [destroyFixtureContacts_contactList, destroyFixtureContacts_contactList]
  unfold Body.DestroyFixture
  simp only [hl, if_false, Bool.false_eq_true, Body.withBroadPhase, Body.broadPhase]
  refine ⟨?_, ?_, ?_⟩
  · split_ifs <;> simp [(ResetMassData_lists _).1]
  · split_ifs <;> simp [(ResetMassData_lists _).2.1]
  · split_ifs <;> simp [(ResetMassData_lists _).2.2.1, key]

/-- What `CreateFixture` does to the list and the count in an unlocked
world. -/
theorem CreateFixture_lists (co : Collab) (b : Body) (d : FixtureDef) (memory : Nat)
    (hl : b.m_world.IsLocked = false) :
    ∃ f, (b.CreateFixture co d memory).2 = some f ∧ f.addr = memory ∧
      f.m_density = d.density ∧
      (b.CreateFixture co d memory).1.m_fixtureList = f :: b.m_fixtureList ∧
      (b.CreateFixture co d memory).1.m_fixtureCount = b.m_fixtureCount + 1 := by
  unfold Body.CreateFixture
  simp only [hl, if_false, Bool.false_eq_true, Body.withBroadPhase, Body.broadPhase,
    Fixture.Create]
  split_ifs <;>
    exact ⟨_, rfl, rfl, rfl, by simp [(ResetMassData_lists _).1],
      by simp [(ResetMassData_lists _).2.1]⟩

/-! ## Sums over the fixture list -/

theorem Vec2.sum_x (l : List Vec2) : l.sum.x = (l.map Vec2.x).sum := by
  induction l with
  | nil => rfl
  | cons v l ih => simp [ih]

theorem Vec2.sum_y (l : List Vec2) : l.sum.y = (l.map Vec2.y).sum := by
  induction l with
  | nil => rfl
  | cons v l ih => simp [ih]

theorem weightedCenter_x (fs : List Fixture) :
    (weightedCenter fs).x =
      ((massFixtures fs).map (fun f => f.GetMassData.mass * f.GetMassData.center.x)).sum := by
  simp [weightedCenter, Vec2.sum_x, Function.comp_def]

theorem weightedCenter_y (fs : List Fixture) :
    (weightedCenter fs).y =
      ((massFixtures fs).map (fun f => f.GetMassData.mass * f.GetMassData.center.y)).sum := by
  simp [weightedCenter, Vec2.sum_y, Function.comp_def]

/-! ## Fixture order -/

theorem totalMass_perm (l1 l2 : List Fixture) (h : l1.Perm l2) :
    totalMass l1 = totalMass l2 :=
  ((h.filter _).map _).sum_eq

theorem totalInertia_perm (l1 l2 : List Fixture) (h : l1.Perm l2) :
    totalInertia l1 = totalInertia l2 :=
  ((h.filter _).map _).sum_eq

theorem weightedCenter_perm (l1 l2 : List Fixture) (h : l1.Perm l2) :
    weightedCenter l1 = weightedCenter l2 := by
  ext
  · rw [weightedCenter_x, weightedCenter_x]
    exact ((h.filter _).map _).sum_eq
  · rw [weightedCenter_y, weightedCenter_y]
    exact ((h.filter _).map _).sum_eq

/-- Reordering the fixture list changes nothing in the result of
`ResetMassData` but the list itself. -/
theorem ResetMassData_perm (b : Body) (l1 l2 : List Fixture) (h : l1.Perm l2) :
    Body.ResetMassData { b with m_fixtureList := l1 } =
      { Body.ResetMassData { b with m_fixtureList := l2 } with m_fixtureList := l1 } := by
  unfold Body.ResetMassData
  simp only [accumulateMass_eq, totalMass_perm l1 l2 h, totalInertia_perm l1 l2 h,
    weightedCenter_perm l1 l2 h]
  split_ifs <;> rfl

/-! ## Chain shapes -/

theorem readVertex_nat (l : List Vec2) (k : Nat) (v : Vec2) (h : l[k]? = some v) :
    readVertex (some l) (k : Int) = v := by
  unfold readVertex
  have : ¬ ((k : Int) < 0) := by omega
  simp [this, h]

theorem CreateLoop_vertices (s : ChainShape) (vertices : List Vec2) (hn : 1 ≤ vertices.length) :
    (s.CreateLoop vertices).m_vertices = some (vertices ++ [vertices.getD 0 ⟨0, 0⟩]) ∧
    (s.CreateLoop vertices).m_count = (vertices.length : Int) + 1 := by
  unfold ChainShape.CreateLoop readVertex
  cases vertices with
  | nil => simp at hn
  | cons v vs => simp


theorem getElem?_some_getD (l : List Vec2) (j : Nat) (hj : j < l.length) :
    l[j]? = some ((l[j]?).getD ⟨0, 0⟩) := by
  rw [List.getElem?_eq_getElem hj]
  rfl

/-- The array a loop stores, read at `k ≤ n`, is the input read at `k mod n`. -/
theorem loop_getElem? (vertices : List Vec2) (hn : 1 ≤ vertices.length) (k : Nat)
    (hk : k ≤ vertices.length) :
    (vertices ++ [vertices.getD 0 ⟨0, 0⟩])[k]? = vertices[k % vertices.length]? := by
  rcases Nat.lt_or_eq_of_le hk with h | h
  · rw [List.getElem?_append_left h, Nat.mod_eq_of_lt h]
  · subst h
    rw [List.getElem?_append_right (le_refl _), Nat.mod_self]
    cases vertices with
    | nil => simp at hn
    | cons v vs => simp

theorem loop_readVertex (vertices : List Vec2) (hn : 1 ≤ vertices.length) (k : Nat)
    (hk : k ≤ vertices.length) :
    vertices[k % vertices.length]? =
      some (readVertex (some (vertices ++ [vertices.getD 0 ⟨0, 0⟩])) (k : Int)) := by
  have hlt : k % vertices.length < vertices.length := Nat.mod_lt _ (by omega)
  have h := getElem?_some_getD vertices _ hlt
  rw [h]
  congr 1
  unfold readVertex
  have : ¬ ((k : Int) < 0) := by omega
  simp only [this, if_false, Option.getD_some, Int.toNat_ofNat]
  rw [loop_getElem? vertices hn k hk]

/-- The child edges of a loop wrap around. -/
theorem CreateLoop_GetChildEdge (s : ChainShape) (edge : EdgeShape) (vertices : List Vec2)
    (i : Nat) (hn : 3 ≤ vertices.length) (hi : i < vertices.length) :
    (s.CreateLoop vertices).GetChildCount = (vertices.length : Int) ∧
    vertices[i]? = some ((s.CreateLoop vertices).GetChildEdge edge i).m_vertex1 ∧
    vertices[(i + 1) % vertices.length]? =
      some ((s.CreateLoop vertices).GetChildEdge edge i).m_vertex2 ∧
    vertices[(i + vertices.length - 1) % vertices.length]? =
      some ((s.CreateLoop vertices).GetChildEdge edge i).m_vertex0 ∧
    vertices[(i + 2) % vertices.length]? =
      some ((s.CreateLoop vertices).GetChildEdge edge i).m_vertex3 ∧
    ((s.CreateLoop vertices).GetChildEdge edge i).m_hasVertex0 = true ∧
    ((s.CreateLoop vertices).GetChildEdge edge i).m_hasVertex3 = true := by
  have h1 : 1 ≤ vertices.length := by omega
  obtain ⟨hv, hc⟩ := CreateLoop_vertices s vertices h1
  have hprev : (s.CreateLoop vertices).m_prevVertex =
      readVertex (some (vertices ++ [vertices.getD 0 ⟨0, 0⟩]))
        ((vertices.length - 1 : Nat) : Int) := by
    have e : ((vertices.length - 1 : Nat) : Int) = (vertices.length : Int) + 1 - 2 := by omega
    rw [e]
    unfold ChainShape.CreateLoop readVertex
    cases vertices with
    | nil => simp at hn
    | cons v vs => simp
  have hnext : (s.CreateLoop vertices).m_nextVertex =
      readVertex (some (vertices ++ [vertices.getD 0 ⟨0, 0⟩])) ((1 : Nat) : Int) := by
    unfold ChainShape.CreateLoop readVertex
    cases vertices with
    | nil => simp at hn
    | cons v vs => simp
  have hhp : (s.CreateLoop vertices).m_hasPrevVertex = true := rfl
  have hhn : (s.CreateLoop vertices).m_hasNextVertex = true := rfl
  refine ⟨by unfold ChainShape.GetChildCount; rw [hc]; ring, ?_, ?_, ?_, ?_, ?_, ?_⟩
  · have := loop_readVertex vertices h1 i (by omega)
    rw [Nat.mod_eq_of_lt hi] at this
    rw [this]
    simp only [ChainShape.GetChildEdge, hv, hc]
    split_ifs <;> simp
  · rw [loop_readVertex vertices h1 (i + 1) (by omega)]
    simp only [ChainShape.GetChildEdge, hv, hc]
    split_ifs <;> simp
  · by_cases h0 : i = 0
    · subst h0
      have e : (0 + vertices.length - 1) % vertices.length =
          (vertices.length - 1) % vertices.length := by simp
      rw [e, loop_readVertex vertices h1 (vertices.length - 1) (by omega), ← hprev]
      have hz : ¬ (((0 : Nat) : Int) > 0) := by simp
      simp only [ChainShape.GetChildEdge, hz, if_false]
      split_ifs <;> rfl
    · have e : (i + vertices.length - 1) % vertices.length = (i - 1) % vertices.length := by
        have : i + vertices.length - 1 = (i - 1) + vertices.length := by omega
        rw [this, Nat.add_mod_right]
      rw [e, loop_readVertex vertices h1 (i - 1) (by omega)]
      have hpos : (i : Int) > 0 := by omega
      have e2 : ((i - 1 : Nat) : Int) = (i : Int) - 1 := by omega
      simp only [ChainShape.GetChildEdge, hv, hc, hpos, if_true, e2]
      split_ifs <;> rfl
  · by_cases hlast : i = vertices.length - 1
    · have e : (i + 2) % vertices.length = 1 % vertices.length := by
        have : i + 2 = 1 + vertices.length := by omega
        rw [this, Nat.add_mod_right]
      rw [e, loop_readVertex vertices h1 1 (by omega), ← hnext]
      have hnot : ¬ ((i : Int) < (vertices.length : Int) + 1 - 2) := by omega
      simp only [ChainShape.GetChildEdge, hv, hc, hnot, if_false]
    · rw [loop_readVertex vertices h1 (i + 2) (by omega)]
      have hlt : (i : Int) < (vertices.length : Int) + 1 - 2 := by omega
      simp only [ChainShape.GetChildEdge, hv, hc, hlt, if_true]
      simp
  · by_cases h0 : (i : Int) > 0
    · simp only [ChainShape.GetChildEdge, h0, if_true]
      split_ifs <;> rfl
    · simp only [ChainShape.GetChildEdge, h0, if_false, hhp]
      split_ifs <;> rfl
  · by_cases hlt : (i : Int) < (s.CreateLoop vertices).m_count - 2
    · simp only [ChainShape.GetChildEdge, hlt, if_true]
    · simp only [ChainShape.GetChildEdge, hlt, if_false, hhn]

theorem spacingAsserts_getElem? (linearSlop : ℚ) (l : List Vec2) (h : spacingAsserts linearSlop l)
    (k : Nat) (v w : Vec2) (hv : l[k]? = some v) (hw : l[k + 1]? = some w) :
    DistanceSquared v w > linearSlop * linearSlop := by
  induction l generalizing k with
  | nil => simp at hv
  | cons a l ih =>
    cases l with
    | nil => simp at hw
    | cons b l =>
      obtain ⟨h1, h2⟩ := h
      cases k with
      | zero =>
        simp at hv hw
        rw [← hv, ← hw]
        exact h1
      | succ k =>
        exact ih h2 k (by simpa using hv) (by simpa using hw)

/-- Every child edge of a chain that `CreateChain` accepts has endpoints
farther apart than `linearSlop`. -/
theorem CreateChain_spacing (linearSlop : ℚ) (s : ChainShape) (edge : EdgeShape)
    (vertices : List Vec2) (h : s.CreateChain_assert linearSlop vertices) (i : Nat)
    (hi : (i : Int) < (s.CreateChain vertices).GetChildCount) :
    DistanceSquared ((s.CreateChain vertices).GetChildEdge edge i).m_vertex1
      ((s.CreateChain vertices).GetChildEdge edge i).m_vertex2 > linearSlop * linearSlop := by
  have hc : (s.CreateChain vertices).m_count = (vertices.length : Int) := rfl
  have hvs : (s.CreateChain vertices).m_vertices = some vertices := rfl
  unfold ChainShape.GetChildCount at hi
  rw [hc] at hi
  have hi2 : i + 1 < vertices.length := by omega
  have e1 : ((s.CreateChain vertices).GetChildEdge edge i).m_vertex1 =
      readVertex (some vertices) (i : Int) := by
    simp only [ChainShape.GetChildEdge, hvs]
    split_ifs <;> simp
  have e2 : ((s.CreateChain vertices).GetChildEdge edge i).m_vertex2 =
      readVertex (some vertices) ((i + 1 : Nat) : Int) := by
    simp only [ChainShape.GetChildEdge, hvs]
    split_ifs <;> simp
  rw [e1, e2]
  apply spacingAsserts_getElem? linearSlop vertices h.2.2 i
  · rw [readVertex_nat vertices i _ (getElem?_some_getD vertices i (by omega))]
    exact getElem?_some_getD vertices i (by omega)
  · rw [readVertex_nat vertices (i + 1) _ (getElem?_some_getD vertices (i + 1) hi2)]
    exact getElem?_some_getD vertices (i + 1) hi2

/-- Every child edge of a loop that `CreateLoop` accepts, the closing edge
apart, has endpoints farther apart than `linearSlop`. -/
theorem CreateLoop_spacing_open (linearSlop : ℚ) (s : ChainShape) (edge : EdgeShape)
    (vertices : List Vec2) (h : s.CreateLoop_assert linearSlop vertices) (i : Nat)
    (hi : i + 1 < vertices.length) :
    DistanceSquared ((s.CreateLoop vertices).GetChildEdge edge i).m_vertex1
      ((s.CreateLoop vertices).GetChildEdge edge i).m_vertex2 > linearSlop * linearSlop := by
  have hn : 3 ≤ vertices.length := by have := h.2.1; omega
  obtain ⟨_, h1, h2, _⟩ := CreateLoop_GetChildEdge s edge vertices i hn (by omega)
  rw [Nat.mod_eq_of_lt hi] at h2
  exact spacingAsserts_getElem? linearSlop vertices h.2.2 i _ _ h1 h2

/-! ## Cloning a chain shape -/

theorem spacingAsserts_of_spacedApart (linearSlop : ℚ) (l : List Vec2)
    (h : spacedApart linearSlop l) : spacingAsserts linearSlop l := by
  induction l with
  | nil => trivial
  | cons a l ih =>
    cases l with
    | nil => trivial
    | cons b l =>
      refine ⟨h 0 a b (by simp) (by simp), ih ?_⟩
      intro k v w hv hw
      exact h (k + 1) v w (by simpa using hv) (by simpa using hw)

/-- A built chain shape stores an array of `m_count >= 2` vertices. -/
theorem Built_stored (s : ChainShape) (h : s.Built) :
    ∃ l : List Vec2, s.m_vertices = some l ∧ s.m_count = (l.length : Int) ∧
      (l.length : Int) ≥ 2 := by
  induction h with
  | chain s vertices h => exact ⟨vertices, rfl, rfl, h⟩
  | loop s vertices h =>
    obtain ⟨h1, h2⟩ := CreateLoop_vertices s vertices (by omega)
    refine ⟨_, h1, ?_, ?_⟩
    · rw [h2]; simp
    · simp; omega
  | setPrev s p _ ih => exact ih
  | setNext s p _ ih => exact ih

theorem Built_vertices (s : ChainShape) (l : List Vec2) (h1 : s.m_vertices = some l)
    (h2 : s.m_count = (l.length : Int)) : s.vertices = l := by
  unfold ChainShape.vertices
  rw [h1, h2]
  simp

/-- The clone of a built chain shape is the shape itself, with the radius of
the default constructor. -/
theorem Clone_eq (polygonRadius : ℚ) (s : ChainShape) (h : s.Built) :
    s.Clone polygonRadius = { s with m_radius := polygonRadius } := by
  obtain ⟨l, h1, h2, _⟩ := Built_stored s h
  have hv := Built_vertices s l h1 h2
  unfold ChainShape.Clone ChainShape.CreateChain ChainShape.ctor
  rw [hv]
  ext <;> simp [h1, h2]

theorem Clone_assert_of_spaced (linearSlop polygonRadius : ℚ) (s : ChainShape) (h : s.Built)
    (hs : spacedApart linearSlop s.vertices) : s.Clone_assert linearSlop polygonRadius := by
  obtain ⟨l, h1, h2, h3⟩ := Built_stored s h
  have hv := Built_vertices s l h1 h2
  refine ⟨⟨rfl, rfl⟩, ?_, spacingAsserts_of_spacedApart linearSlop _ hs⟩
  rw [hv]
  exact h3

theorem GetChildEdge_radius (s : ChainShape) (r : ℚ) (edge : EdgeShape) (index : Int) :
    ChainShape.GetChildEdge { s with m_radius := r } edge index =
      { s.GetChildEdge edge index with m_radius := r } := by
  unfold ChainShape.GetChildEdge
  simp only []
  split_ifs <;> rfl

/-! ## Claims -/

/-- C1: in every body state reachable from the constructor by any sequence of
ResetMassData, SetMassData, SetType, CreateFixture, DestroyFixture and
SetFixedRotation (the world changing its own state, lock included, in
between), a body whose type is static or kinematic has mass = 0, invMass = 0,
I = 0 and invI = 0, whatever fixtures are attached. -/
theorem static_kinematic_zero_mass (co : Collab) (bd : BodyDef) (world : World)
    (ops : List Op) (hops : ∀ o ∈ ops, o.isMassOp = true)
    (hty : (run co (Body.ctor co.trig bd world) ops).m_type = staticBody ∨
      (run co (Body.ctor co.trig bd world) ops).m_type = kinematicBody) :
    (run co (Body.ctor co.trig bd world) ops).m_mass = 0 ∧
    (run co (Body.ctor co.trig bd world) ops).m_invMass = 0 ∧
    (run co (Body.ctor co.trig bd world) ops).m_I = 0 ∧
    (run co (Body.ctor co.trig bd world) ops).m_invI = 0 := by
  have h := massInv_run co ops _ hops (massInv_ctor co.trig bd world)
  apply h.2
  rcases hty with hty | hty <;> rw [hty] <;> decide

theorem static_kinematic_zero_mass_witness :
    (∀ o ∈ exMassOps kinematicBody, o.isMassOp = true) ∧
    (run exCollab (Body.ctor exCollab.trig (exBodyDef staticBody) exWorld)
      (exMassOps kinematicBody)).m_type = kinematicBody ∧
    (run exCollab (Body.ctor exCollab.trig (exBodyDef staticBody) exWorld)
      (exMassOps kinematicBody)).m_mass = 0 ∧
    (run exCollab (Body.ctor exCollab.trig (exBodyDef staticBody) exWorld)
      (exMassOps kinematicBody)).m_invMass = 0 ∧
    (run exCollab (Body.ctor exCollab.trig (exBodyDef staticBody) exWorld)
      (exMassOps kinematicBody)).m_I = 0 ∧
    (run exCollab (Body.ctor exCollab.trig (exBodyDef staticBody) exWorld)
      (exMassOps kinematicBody)).m_invI = 0 :=
  ⟨by decide, by decide,
    static_kinematic_zero_mass exCollab (exBodyDef staticBody) exWorld
      (exMassOps kinematicBody) (by decide) (Or.inr (by decide))⟩

/-- C3: for every dynamic body with an empty fixture list, after
ResetMassData the body has mass = 1, invMass = 1, I = 0 and invI = 0, whatever
its previous mass data and its fixedRotation flag. -/
theorem ResetMassData_no_fixtures (b : Body) (ht : b.m_type = dynamicBody)
    (hf : b.m_fixtureList = []) :
    b.ResetMassData.m_mass = 1 ∧ b.ResetMassData.m_invMass = 1 ∧
    b.ResetMassData.m_I = 0 ∧ b.ResetMassData.m_invI = 0 := by
  rw [ResetMassData_invI b ht, ResetMassData_I b ht, ResetMassData_mass b ht,
    ResetMassData_invMass b ht, hf]
  simp [totalMass, totalInertia, massFixtures]

theorem ResetMassData_no_fixtures_witness :
    ({ exDynamicBody with m_fixtureList := [] } : Body).ResetMassData.m_mass = 1 ∧
    ({ exDynamicBody with m_fixtureList := [] } : Body).ResetMassData.m_invMass = 1 ∧
    ({ exDynamicBody with m_fixtureList := [] } : Body).ResetMassData.m_I = 0 ∧
    ({ exDynamicBody with m_fixtureList := [] } : Body).ResetMassData.m_invI = 0 :=
  ResetMassData_no_fixtures { exDynamicBody with m_fixtureList := [] } (by decide) rfl

/-- C7: for every body that is non-dynamic (any wake argument), or dynamic
and asleep with wake = false, each of ApplyForce, ApplyForceToCenter,
ApplyTorque, ApplyLinearImpulse and ApplyAngularImpulse returns the body state
unchanged. -/
theorem Apply_discarded (b : Body) (force point impulse : Vec2) (torque angularImpulse : ℚ)
    (wake : Bool)
    (h : b.m_type ≠ dynamicBody ∨
      (b.m_type = dynamicBody ∧ b.m_flags.awakeFlag = false ∧ wake = false)) :
    b.ApplyForce force point wake = b ∧
    b.ApplyForceToCenter force wake = b ∧
    b.ApplyTorque torque wake = b ∧
    b.ApplyLinearImpulse impulse point wake = b ∧
    b.ApplyAngularImpulse angularImpulse wake = b :=
  Apply_skip b force point impulse torque angularImpulse wake h

theorem Apply_discarded_witness :
    (exSleepingBody.ApplyForce ⟨1, 2⟩ ⟨3, 4⟩ false = exSleepingBody ∧
     exSleepingBody.ApplyForceToCenter ⟨1, 2⟩ false = exSleepingBody ∧
     exSleepingBody.ApplyTorque 5 false = exSleepingBody ∧
     exSleepingBody.ApplyLinearImpulse ⟨6, 7⟩ ⟨3, 4⟩ false = exSleepingBody ∧
     exSleepingBody.ApplyAngularImpulse 8 false = exSleepingBody) ∧
    (({ exDynamicBody with m_type := kinematicBody } : Body).ApplyForce ⟨1, 2⟩ ⟨3, 4⟩ true =
      { exDynamicBody with m_type := kinematicBody }) :=
  ⟨Apply_discarded exSleepingBody ⟨1, 2⟩ ⟨3, 4⟩ ⟨6, 7⟩ 5 8 false
      (Or.inr ⟨by decide, by decide, rfl⟩),
    (Apply_discarded { exDynamicBody with m_type := kinematicBody } ⟨1, 2⟩ ⟨3, 4⟩ ⟨6, 7⟩ 5 8
      true (Or.inl (by decide))).1⟩

/-- C8: for every dynamic body that is awake, or asleep and called with
wake = true: ApplyForce(f, p) gives force + f and torque + cross(p - c, f);
ApplyForceToCenter(f) gives force + f and leaves the torque; ApplyTorque(t)
gives torque + t; ApplyLinearImpulse(j, p) gives linearVelocity + invMass * j
and angularVelocity + invI * cross(p - c, j); ApplyAngularImpulse(a) gives
angularVelocity + invI * a; and the body is awake afterwards. -/
theorem Apply_accumulates (b : Body) (f p j : Vec2) (t a : ℚ) (wake : Bool)
    (ht : b.m_type = dynamicBody) (hw : b.m_flags.awakeFlag = true ∨ wake = true) :
    ((b.ApplyForce f p wake).m_force = b.m_force + f ∧
      (b.ApplyForce f p wake).m_torque = b.m_torque + Cross2v (p - b.m_sweep.c) f ∧
      (b.ApplyForce f p wake).IsAwake = true) ∧
    ((b.ApplyForceToCenter f wake).m_force = b.m_force + f ∧
      (b.ApplyForceToCenter f wake).m_torque = b.m_torque ∧
      (b.ApplyForceToCenter f wake).IsAwake = true) ∧
    ((b.ApplyTorque t wake).m_torque = b.m_torque + t ∧
      (b.ApplyTorque t wake).IsAwake = true) ∧
    ((b.ApplyLinearImpulse j p wake).m_linearVelocity = b.m_linearVelocity + b.m_invMass * j ∧
      (b.ApplyLinearImpulse j p wake).m_angularVelocity =
        b.m_angularVelocity + b.m_invI * Cross2v (p - b.m_sweep.c) j ∧
      (b.ApplyLinearImpulse j p wake).IsAwake = true) ∧
    ((b.ApplyAngularImpulse a wake).m_angularVelocity = b.m_angularVelocity + b.m_invI * a ∧
      (b.ApplyAngularImpulse a wake).IsAwake = true) :=
  Apply_effect b f p j t a wake ht hw

theorem Apply_accumulates_witness :
    (exSleepingBody.ApplyForce ⟨1, 2⟩ ⟨3, 4⟩ true).m_force = exSleepingBody.m_force + ⟨1, 2⟩ ∧
    (exSleepingBody.ApplyForce ⟨1, 2⟩ ⟨3, 4⟩ true).IsAwake = true ∧
    (exDynamicBody.ApplyLinearImpulse ⟨6, 7⟩ ⟨3, 4⟩ false).m_linearVelocity =
      exDynamicBody.m_linearVelocity + exDynamicBody.m_invMass * (⟨6, 7⟩ : Vec2) :=
  ⟨(Apply_accumulates exSleepingBody ⟨1, 2⟩ ⟨3, 4⟩ ⟨6, 7⟩ 5 8 true (by decide)
      (Or.inr rfl)).1.1,
    (Apply_accumulates exSleepingBody ⟨1, 2⟩ ⟨3, 4⟩ ⟨6, 7⟩ 5 8 true (by decide)
      (Or.inr rfl)).1.2.2,
    (Apply_accumulates exDynamicBody ⟨1, 2⟩ ⟨3, 4⟩ ⟨6, 7⟩ 5 8 false (by decide)
      (Or.inl (by decide))).2.2.2.1.1⟩

theorem jointPreventsCollision_iff (other : Nat) (l : List JointEdge) :
    jointPreventsCollision other l = true ↔
      ∃ jn ∈ l, jn.other = other ∧ jn.joint.m_collideConnected = false := by
  induction l with
  | nil => simp [jointPreventsCollision]
  | cons jn l ih =>
    unfold jointPreventsCollision
    by_cases h1 : jn.other = other
    · by_cases h2 : jn.joint.m_collideConnected = false
      · simp [h1, h2]
      · simp [h1, h2, ih]
    · simp [h1, ih]

/-- C9: `a.ShouldCollide(b)` returns true if and only if at least one of a, b
is dynamic and a's joint list has no joint edge whose other body is b and
whose joint has collideConnected = false; so two non-dynamic bodies never
collide and two dynamic bodies with no joint edge of a to b always may. -/
theorem ShouldCollide_iff (a : Body) (other : Nat) (b : Body) :
    (a.ShouldCollide other b = true ↔
      (a.m_type = dynamicBody ∨ b.m_type = dynamicBody) ∧
      ∀ jn ∈ a.m_jointList, ¬ (jn.other = other ∧ jn.joint.m_collideConnected = false)) ∧
    (a.m_type ≠ dynamicBody → b.m_type ≠ dynamicBody → a.ShouldCollide other b = false) ∧
    (a.m_type = dynamicBody → b.m_type = dynamicBody →
      (∀ jn ∈ a.m_jointList, jn.other ≠ other) → a.ShouldCollide other b = true) := by
  have key : a.ShouldCollide other b = true ↔
      (a.m_type = dynamicBody ∨ b.m_type = dynamicBody) ∧
      ∀ jn ∈ a.m_jointList, ¬ (jn.other = other ∧ jn.joint.m_collideConnected = false) := by
    unfold Body.ShouldCollide
    by_cases ha : a.m_type = dynamicBody ∨ b.m_type = dynamicBody
    · have hd : ¬ (a.m_type ≠ dynamicBody ∧ b.m_type ≠ dynamicBody) := by tauto
      rw [if_neg hd]
      by_cases hj : jointPreventsCollision other a.m_jointList = true
      · rw [if_pos hj]
        obtain ⟨jn, hmem, hjn⟩ := (jointPreventsCollision_iff _ _).1 hj
        constructor
        · intro h; cases h
        · rintro ⟨_, h⟩; exact absurd hjn (h jn hmem)
      · rw [if_neg hj]
        constructor
        · intro _
          exact ⟨ha, fun jn hmem hjn => hj ((jointPreventsCollision_iff _ _).2 ⟨jn, hmem, hjn⟩)⟩
        · intro _; rfl
    · have hd : a.m_type ≠ dynamicBody ∧ b.m_type ≠ dynamicBody := by
        push_neg at ha; exact ha
      rw [if_pos hd]
      constructor
      · intro h; cases h
      · rintro ⟨h, _⟩; exact absurd h ha
  refine ⟨key, fun ha hb => ?_, fun ha hb hj => ?_⟩
  · cases hs : a.ShouldCollide other b
    · rfl
    · rcases (key.1 hs).1 with h | h
      · exact absurd h ha
      · exact absurd h hb
  · exact key.2 ⟨Or.inl ha, fun jn hmem hjn => hj jn hmem hjn.1⟩

theorem ShouldCollide_iff_witness :
    exJointedBody.ShouldCollide 7 exDynamicBody = false ∧
    exJointedBody.ShouldCollide 9 exDynamicBody = true ∧
    ({ exDynamicBody with m_type := staticBody } : Body).ShouldCollide 9
      { exDynamicBody with m_type := kinematicBody } = false :=
  ⟨by
      cases hs : exJointedBody.ShouldCollide 7 exDynamicBody
      · rfl
      · exact absurd (((ShouldCollide_iff exJointedBody 7 exDynamicBody).1.1 hs).2
          ⟨7, ⟨false⟩⟩ (by decide)) (by decide),
    (ShouldCollide_iff exJointedBody 9 exDynamicBody).2.2 (by decide) (by decide) (by decide),
    (ShouldCollide_iff { exDynamicBody with m_type := staticBody } 9
      { exDynamicBody with m_type := kinematicBody }).2.1 (by decide) (by decide)⟩

/-- C10: for every body whose owning world is locked (assertions compiled
out), CreateFixture returns null, and CreateFixture, DestroyFixture, SetType
and SetTransform2D return the state (body fields and world, flags included)
unchanged. -/
theorem locked_world_noop (co : Collab) (b : Body) (d : FixtureDef) (shape : Shape)
    (density : ℚ) (memory : Nat) (fixture : Fixture) (type : BodyType) (position : Vec2)
    (angle : ℚ) (hl : b.m_world.IsLocked = true) :
    b.CreateFixture co d memory = (b, none) ∧
    b.CreateFixtureShape co shape density memory = (b, none) ∧
    b.DestroyFixture co fixture = b ∧
    b.SetType co type = b ∧
    b.SetTransform2D co position angle = b := by
  unfold Body.CreateFixtureShape Body.CreateFixture Body.DestroyFixture Body.SetType
    Body.SetTransform2D
  simp [hl]

theorem locked_world_noop_witness :
    exLockedBody.m_world.IsLocked = true ∧
    exLockedBody.CreateFixture exCollab { shape := exShape, density := 2 } 400 =
      (exLockedBody, none) ∧
    exLockedBody.CreateFixtureShape exCollab exShape 2 400 = (exLockedBody, none) ∧
    exLockedBody.DestroyFixture exCollab exFixture = exLockedBody ∧
    exLockedBody.SetType exCollab staticBody = exLockedBody ∧
    exLockedBody.SetTransform2D exCollab ⟨5, 6⟩ 0 = exLockedBody :=
  ⟨by decide,
    locked_world_noop exCollab exLockedBody { shape := exShape, density := 2 } exShape 2 400
      exFixture staticBody ⟨5, 6⟩ 0 (by decide)⟩

/-- C6, as the code has it: in every body state reachable from the
constructor, for a BodyDef that passes the validity checks, by any sequence
of SetAwake, SetLinearVelocity, SetAngularVelocity, the five Apply*
operations, SetType, SetMassData, ResetMassData, SetFixedRotation and
SetSleepingAllowed (the world changing its own state in between), a body
whose awake flag is clear has force = 0 and torque = 0.  Nothing is promised
about its linear and angular velocity. -/
theorem sleeping_body_has_no_force (co : Collab) (bd : BodyDef) (world : World)
    (ops : List Op) (_hv : bd.valid) (hops : ∀ o ∈ ops, o.isSleepOp = true)
    (ha : (run co (Body.ctor co.trig bd world) ops).m_flags.awakeFlag = false) :
    (run co (Body.ctor co.trig bd world) ops).m_force = ⟨0, 0⟩ ∧
    (run co (Body.ctor co.trig bd world) ops).m_torque = 0 :=
  forceInv_run co ops (Body.ctor co.trig bd world) hops (fun _ => ⟨rfl, rfl⟩) ha

theorem sleeping_body_has_no_force_witness :
    (exBodyDef dynamicBody).valid ∧
    (∀ o ∈ exSleepOps, o.isSleepOp = true) ∧
    (run exCollab (Body.ctor exCollab.trig (exBodyDef dynamicBody) exWorld)
      (exSleepOps.take 2)).m_flags.awakeFlag = true ∧
    (run exCollab (Body.ctor exCollab.trig (exBodyDef dynamicBody) exWorld)
      (exSleepOps.take 2)).m_force = ⟨1, 2⟩ ∧
    (run exCollab (Body.ctor exCollab.trig (exBodyDef dynamicBody) exWorld)
      exSleepOps).m_flags.awakeFlag = false ∧
    (run exCollab (Body.ctor exCollab.trig (exBodyDef dynamicBody) exWorld)
      exSleepOps).m_force = ⟨0, 0⟩ ∧
    (run exCollab (Body.ctor exCollab.trig (exBodyDef dynamicBody) exWorld)
      exSleepOps).m_torque = 0 :=
  have ha : (run exCollab (Body.ctor exCollab.trig (exBodyDef dynamicBody) exWorld)
      exSleepOps).m_flags.awakeFlag = false := by
    simp [run, exSleepOps, Op.apply, Body.SetSleepingAllowed, Body.ApplyTorque, Body.SetAwake]
  ⟨by decide, by decide,
    by norm_num [run, exSleepOps, Op.apply, Body.ApplyForce, Body.SetAwake,
      Body.SetLinearVelocity, Body.ctor, exBodyDef, dot,
      show ¬ (dynamicBody = staticBody) from by decide],
    by norm_num [run, exSleepOps, Op.apply, Body.ApplyForce, Body.SetAwake,
      Body.SetLinearVelocity, Body.ctor, exBodyDef, dot, Vec2.ext_iff,
      show ¬ (dynamicBody = staticBody) from by decide], ha,
    sleeping_body_has_no_force exCollab (exBodyDef dynamicBody) exWorld exSleepOps (by decide)
      (by decide) ha⟩

/-- C6 as stated fails at the constructor: the valid BodyDef
`exAsleepMovingDef` (awake = false, linearVelocity = (3, 0),
angularVelocity = 2) gives, after the constructor and after the sleep
operations ApplyTorque(5, wake = false) and SetSleepingAllowed(true), a body
whose awake flag is clear and whose linear velocity is still (3, 0) and
angular velocity still 2. -/
theorem sleeping_body_moving_counterexample :
    exAsleepMovingDef.valid ∧
    (∀ o ∈ [Op.ApplyTorque 5 false, Op.SetSleepingAllowed true], o.isSleepOp = true) ∧
    (Body.ctor exCollab.trig exAsleepMovingDef exWorld).m_flags.awakeFlag = false ∧
    (Body.ctor exCollab.trig exAsleepMovingDef exWorld).m_linearVelocity = ⟨3, 0⟩ ∧
    (run exCollab (Body.ctor exCollab.trig exAsleepMovingDef exWorld)
      [Op.ApplyTorque 5 false, Op.SetSleepingAllowed true]).m_flags.awakeFlag = false ∧
    (run exCollab (Body.ctor exCollab.trig exAsleepMovingDef exWorld)
      [Op.ApplyTorque 5 false, Op.SetSleepingAllowed true]).m_linearVelocity = ⟨3, 0⟩ ∧
    (run exCollab (Body.ctor exCollab.trig exAsleepMovingDef exWorld)
      [Op.ApplyTorque 5 false, Op.SetSleepingAllowed true]).m_angularVelocity = 2 ∧
    ¬ ((run exCollab (Body.ctor exCollab.trig exAsleepMovingDef exWorld)
        [Op.ApplyTorque 5 false, Op.SetSleepingAllowed true]).m_linearVelocity = ⟨0, 0⟩ ∧
      (run exCollab (Body.ctor exCollab.trig exAsleepMovingDef exWorld)
        [Op.ApplyTorque 5 false, Op.SetSleepingAllowed true]).m_angularVelocity = 0 ∧
      (run exCollab (Body.ctor exCollab.trig exAsleepMovingDef exWorld)
        [Op.ApplyTorque 5 false, Op.SetSleepingAllowed true]).m_force = ⟨0, 0⟩ ∧
      (run exCollab (Body.ctor exCollab.trig exAsleepMovingDef exWorld)
        [Op.ApplyTorque 5 false, Op.SetSleepingAllowed true]).m_torque = 0) := by
  refine ⟨by decide, by decide, by decide, by decide, by decide, by decide, by decide, ?_⟩
  decide

/-- C11: for every body in an unlocked world and every type t different from
the body's type, after SetType(t) the type is t, the mass data (mass, invMass,
I, invI, local center) is the one ResetMassData computes for type t, the body
is awake, force = 0 and torque = 0, the contact list is empty, every proxy of
every owned fixture is in the broad phase's move buffer, and if t is static
the linear and angular velocities are 0; if t is the body's type, SetType
returns the state unchanged. -/
theorem SetType_changes (co : Collab) (b : Body) (t : BodyType) :
    (b.m_world.IsLocked = false → b.m_type ≠ t →
      (b.SetType co t).m_type = t ∧
      (b.SetType co t).m_mass = (Body.ResetMassData { b with m_type := t }).m_mass ∧
      (b.SetType co t).m_invMass = (Body.ResetMassData { b with m_type := t }).m_invMass ∧
      (b.SetType co t).m_I = (Body.ResetMassData { b with m_type := t }).m_I ∧
      (b.SetType co t).m_invI = (Body.ResetMassData { b with m_type := t }).m_invI ∧
      (b.SetType co t).m_sweep.localCenter =
        (Body.ResetMassData { b with m_type := t }).m_sweep.localCenter ∧
      (b.SetType co t).IsAwake = true ∧
      (b.SetType co t).m_force = ⟨0, 0⟩ ∧
      (b.SetType co t).m_torque = 0 ∧
      (b.SetType co t).m_contactList = [] ∧
      (∀ f ∈ (b.SetType co t).m_fixtureList, ∀ p ∈ f.m_proxies,
        p ∈ (b.SetType co t).broadPhase.m_moveBuffer) ∧
      (t = staticBody → (b.SetType co t).m_linearVelocity = ⟨0, 0⟩ ∧
        (b.SetType co t).m_angularVelocity = 0)) ∧
    (b.m_type = t → b.SetType co t = b) := by
  refine ⟨fun hl ht => ?_, fun ht => SetType_skip co b t (Or.inr ht)⟩
  obtain ⟨h1, h2, h3, h4, h5⟩ := SetType_massData co b t hl ht
  obtain ⟨r1, r2, r3, r4, r5, r6, bp, r7⟩ := SetType_rest co b t hl ht
  refine ⟨h1, h2, h3, h4, h5, r1, SetType_awake co b t hl ht, r2, r3, r4, ?_, r6⟩
  intro f hf p hp
  rw [r5] at hf
  show p ∈ (b.SetType co t).m_world.m_contactManager.m_broadPhase.m_moveBuffer
  rw [r7]
  exact (touchFixtures_touched b.m_fixtureList bp).2.2 f hf p hp

theorem SetType_changes_witness :
    (exContactBody.SetType exCollab staticBody).m_type = staticBody ∧
    (exContactBody.SetType exCollab staticBody).m_mass = 0 ∧
    (exContactBody.SetType exCollab staticBody).IsAwake = true ∧
    (exContactBody.SetType exCollab staticBody).m_contactList = [] ∧
    (∀ f ∈ (exContactBody.SetType exCollab staticBody).m_fixtureList, ∀ p ∈ f.m_proxies,
      p ∈ (exContactBody.SetType exCollab staticBody).broadPhase.m_moveBuffer) ∧
    (exContactBody.SetType exCollab staticBody).m_linearVelocity = ⟨0, 0⟩ ∧
    exContactBody.SetType exCollab dynamicBody = exContactBody :=
  have h := (SetType_changes exCollab exContactBody staticBody).1 (by decide) (by decide)
  ⟨h.1, h.2.1.trans (ResetMassData_nondynamic _ (by decide)).1, h.2.2.2.2.2.2.1,
    h.2.2.2.2.2.2.2.2.2.1, h.2.2.2.2.2.2.2.2.2.2.1, (h.2.2.2.2.2.2.2.2.2.2.2 rfl).1,
    (SetType_changes exCollab exContactBody dynamicBody).2 (by decide)⟩

/-- C12: for every body that is already awake, SetAwake(true) returns the
state unchanged, the sleep timer included; for every body, SetAwake(true)
twice gives the same state as once; and the sleep timer is reset to 0 when
the call finds the awake flag clear and keeps its value otherwise. -/
theorem SetAwake_true_idempotent (b : Body) :
    (b.m_flags.awakeFlag = true → b.SetAwake true = b) ∧
    (b.SetAwake true).SetAwake true = b.SetAwake true ∧
    (b.m_flags.awakeFlag = true → (b.SetAwake true).m_sleepTime = b.m_sleepTime) ∧
    (b.m_flags.awakeFlag = false → (b.SetAwake true).m_sleepTime = 0) := by
  unfold Body.SetAwake
  by_cases ha : b.m_flags.awakeFlag = true
  · simp [ha]
  · have hf : b.m_flags.awakeFlag = false := by simpa using ha
    simp [hf]

theorem SetAwake_true_idempotent_witness :
    exDynamicBody.SetAwake true = exDynamicBody ∧
    (exSleepingBody.SetAwake true).SetAwake true = exSleepingBody.SetAwake true ∧
    (({ exSleepingBody with m_sleepTime := 3 } : Body).SetAwake true).m_sleepTime = 0 ∧
    (({ exDynamicBody with m_sleepTime := 3 } : Body).SetAwake true).m_sleepTime = 3 :=
  ⟨(SetAwake_true_idempotent exDynamicBody).1 (by decide),
    (SetAwake_true_idempotent exSleepingBody).2.1,
    (SetAwake_true_idempotent { exSleepingBody with m_sleepTime := 3 }).2.2.2 (by decide),
    (SetAwake_true_idempotent { exDynamicBody with m_sleepTime := 3 }).2.2.1 (by decide)⟩

/-- C13: for every body, after SetAwake(false) the awake flag is clear, the
linear velocity, angular velocity, force, torque and sleep timer are 0, and
every other field is as before. -/
theorem SetAwake_false_effect (b : Body) :
    (b.SetAwake false).m_flags.awakeFlag = false ∧
    (b.SetAwake false).m_linearVelocity = ⟨0, 0⟩ ∧
    (b.SetAwake false).m_angularVelocity = 0 ∧
    (b.SetAwake false).m_force = ⟨0, 0⟩ ∧
    (b.SetAwake false).m_torque = 0 ∧
    (b.SetAwake false).m_sleepTime = 0 ∧
    b.SetAwake false =
      { b with
        m_flags := { b.m_flags with awakeFlag := false }
        m_linearVelocity := ⟨0, 0⟩
        m_angularVelocity := 0
        m_force := ⟨0, 0⟩
        m_torque := 0
        m_sleepTime := 0 } := by
  unfold Body.SetAwake
  simp

/-- C14: in every body state reachable from the constructor by any sequence
of ResetMassData, SetMassData, SetFixedRotation, SetType, CreateFixture and
DestroyFixture (the world changing its own state in between), a body whose
fixedRotation flag is set has I = 0 and invI = 0; and every call
SetFixedRotation(flag) that changes the flag leaves the angular velocity 0. -/
theorem fixedRotation_zero_inertia (co : Collab) (bd : BodyDef) (world : World)
    (ops : List Op) (b : Body) (flag : Bool) (hops : ∀ o ∈ ops, o.isMassOp = true) :
    ((run co (Body.ctor co.trig bd world) ops).m_flags.fixedRotationFlag = true →
      (run co (Body.ctor co.trig bd world) ops).m_I = 0 ∧
      (run co (Body.ctor co.trig bd world) ops).m_invI = 0) ∧
    (b.m_flags.fixedRotationFlag ≠ flag →
      (b.SetFixedRotation flag).m_flags.fixedRotationFlag = flag ∧
      (b.SetFixedRotation flag).m_angularVelocity = 0) :=
  ⟨fixedInv_run co ops _ hops (fixedInv_ctor co.trig bd world),
    SetFixedRotation_changed b flag⟩

/-- The invariant on a dynamic body.  A static body spinning at 2 gets a
fixture of density 2 and becomes dynamic: the flag is clear, I = 3 and invI is
not 0.  SetFixedRotation(true) changes the flag, so it zeroes the angular
velocity and runs ResetMassData, which finds the rotational inertia 9 > 0 of
the fixture and takes the else-branch because of the flag.  SetMassData with
I = 30 > 0 then goes through (mass = 4) and skips the inertia for the same
reason. -/
theorem fixedRotation_zero_inertia_witness :
    (∀ o ∈ exInertiaOps ++ [Op.SetFixedRotation true, Op.SetMassData exMassData],
      o.isMassOp = true) ∧
    ((run exCollab (Body.ctor exCollab.trig exSpinningDef exWorld) exInertiaOps).m_type =
        dynamicBody ∧
      (run exCollab (Body.ctor exCollab.trig exSpinningDef exWorld)
        exInertiaOps).m_flags.fixedRotationFlag = false ∧
      (run exCollab (Body.ctor exCollab.trig exSpinningDef exWorld)
        exInertiaOps).m_angularVelocity = 2 ∧
      (run exCollab (Body.ctor exCollab.trig exSpinningDef exWorld) exInertiaOps).m_I = 3 ∧
      (run exCollab (Body.ctor exCollab.trig exSpinningDef exWorld) exInertiaOps).m_invI ≠
        0) ∧
    ((run exCollab (Body.ctor exCollab.trig exSpinningDef exWorld)
        (exInertiaOps ++ [Op.SetFixedRotation true])).m_type = dynamicBody ∧
      totalInertia (run exCollab (Body.ctor exCollab.trig exSpinningDef exWorld)
        (exInertiaOps ++ [Op.SetFixedRotation true])).m_fixtureList = 9 ∧
      (run exCollab (Body.ctor exCollab.trig exSpinningDef exWorld)
        (exInertiaOps ++ [Op.SetFixedRotation true])).m_flags.fixedRotationFlag = true ∧
      (run exCollab (Body.ctor exCollab.trig exSpinningDef exWorld)
        (exInertiaOps ++ [Op.SetFixedRotation true])).m_angularVelocity = 0 ∧
      (run exCollab (Body.ctor exCollab.trig exSpinningDef exWorld)
        (exInertiaOps ++ [Op.SetFixedRotation true])).m_I = 0 ∧
      (run exCollab (Body.ctor exCollab.trig exSpinningDef exWorld)
        (exInertiaOps ++ [Op.SetFixedRotation true])).m_invI = 0) ∧
    ((run exCollab (Body.ctor exCollab.trig exSpinningDef exWorld)
        (exInertiaOps ++ [Op.SetFixedRotation true, Op.SetMassData exMassData])).m_type =
        dynamicBody ∧
      (run exCollab (Body.ctor exCollab.trig exSpinningDef exWorld)
        (exInertiaOps ++ [Op.SetFixedRotation true, Op.SetMassData exMassData])).m_mass = 4 ∧
      (run exCollab (Body.ctor exCollab.trig exSpinningDef exWorld)
        (exInertiaOps ++ [Op.SetFixedRotation true,
          Op.SetMassData exMassData])).m_flags.fixedRotationFlag = true ∧
      0 < exMassData.I ∧
      (run exCollab (Body.ctor exCollab.trig exSpinningDef exWorld)
        (exInertiaOps ++ [Op.SetFixedRotation true, Op.SetMassData exMassData])).m_I = 0 ∧
      (run exCollab (Body.ctor exCollab.trig exSpinningDef exWorld)
        (exInertiaOps ++ [Op.SetFixedRotation true, Op.SetMassData exMassData])).m_invI =
        0) := by
  have h1l : ((Body.ctor exCollab.trig exSpinningDef exWorld).CreateFixture exCollab
      { shape := exShape, density := 2 } 100).1.m_world.IsLocked = false := by
    rw [CreateFixture_locked]; rfl
  have h1t : ((Body.ctor exCollab.trig exSpinningDef exWorld).CreateFixture exCollab
      { shape := exShape, density := 2 } 100).1.m_type ≠ dynamicBody := by
    rw [CreateFixture_type]; decide
  have h1f : ((Body.ctor exCollab.trig exSpinningDef exWorld).CreateFixture exCollab
      { shape := exShape, density := 2 } 100).1.m_flags.fixedRotationFlag = false := by
    rw [(CreateFixture_flags _ _ _ _).1]; rfl
  have h1a : ((Body.ctor exCollab.trig exSpinningDef exWorld).CreateFixture exCollab
      { shape := exShape, density := 2 } 100).1.m_angularVelocity = 2 := by
    rw [(CreateFixture_flags _ _ _ _).2]; rfl
  obtain ⟨ps, hps⟩ := CreateFixture_new exCollab (Body.ctor exCollab.trig exSpinningDef exWorld)
    { shape := exShape, density := 2 } 100 rfl
  have hJ : totalInertia ((Body.ctor exCollab.trig exSpinningDef exWorld).CreateFixture
      exCollab { shape := exShape, density := 2 } 100).1.m_fixtureList = 9 := by
    rw [hps]
    norm_num [totalInertia, massFixtures, Fixture.GetMassData, Fixture.Create, exShape,
      Body.ctor]
  have hM : totalMass ((Body.ctor exCollab.trig exSpinningDef exWorld).CreateFixture
      exCollab { shape := exShape, density := 2 } 100).1.m_fixtureList = 6 := by
    rw [hps]
    norm_num [totalMass, massFixtures, Fixture.GetMassData, Fixture.Create, exShape,
      Body.ctor]
  have hS : weightedCenter ((Body.ctor exCollab.trig exSpinningDef exWorld).CreateFixture
      exCollab { shape := exShape, density := 2 } 100).1.m_fixtureList = ⟨6, 0⟩ := by
    rw [hps]
    norm_num [weightedCenter, massFixtures, Fixture.GetMassData, Fixture.Create, exShape,
      Body.ctor, Vec2.ext_iff]
  set b1 := ((Body.ctor exCollab.trig exSpinningDef exWorld).CreateFixture exCollab
      { shape := exShape, density := 2 } 100).1 with hb1
  have hrm : (Body.ResetMassData { b1 with m_type := dynamicBody }).m_mass = 6 := by
    rw [ResetMassData_mass _ rfl]
    show (if totalMass b1.m_fixtureList > 0 then totalMass b1.m_fixtureList else 1) = 6
    rw [hM]; norm_num
  have hrc : (Body.ResetMassData { b1 with m_type := dynamicBody }).m_sweep.localCenter =
      ⟨1, 0⟩ := by
    rw [ResetMassData_localCenter _ rfl]
    show (if totalMass b1.m_fixtureList > 0 then
      weightedCenter b1.m_fixtureList * (1 / totalMass b1.m_fixtureList)
      else weightedCenter b1.m_fixtureList) = _
    rw [hM, hS]; norm_num [Vec2.ext_iff]
  have hrI : (Body.ResetMassData { b1 with m_type := dynamicBody }).m_I = 3 := by
    rw [ResetMassData_I _ rfl, hrm, hrc]
    show (if totalInertia b1.m_fixtureList > 0 ∧ b1.m_flags.fixedRotationFlag = false then
      totalInertia b1.m_fixtureList - 6 * dot ⟨1, 0⟩ ⟨1, 0⟩ else 0) = 3
    rw [hJ, h1f]; norm_num [dot]
  have hrinv : (Body.ResetMassData { b1 with m_type := dynamicBody }).m_invI = 1 / 3 := by
    rw [ResetMassData_invI _ rfl, hrI]
    show (if totalInertia b1.m_fixtureList > 0 ∧ b1.m_flags.fixedRotationFlag = false then
      (1 : ℚ) / 3 else 0) = 1 / 3
    rw [hJ, h1f]; norm_num
  have h2 := SetType_massData exCollab b1 dynamicBody h1l h1t
  have h2l : (b1.SetType exCollab dynamicBody).m_world.IsLocked = false := by
    rw [SetType_locked]; exact h1l
  have h2f : (b1.SetType exCollab dynamicBody).m_flags.fixedRotationFlag = false := by
    rw [SetType_fixedRotationFlag]; exact h1f
  have h2a : (b1.SetType exCollab dynamicBody).m_angularVelocity = 2 := by
    rw [SetType_angularVelocity _ _ _ (by decide)]; exact h1a
  have h2fl : (b1.SetType exCollab dynamicBody).m_fixtureList = b1.m_fixtureList :=
    (SetType_rest exCollab b1 dynamicBody h1l h1t).2.2.2.2.1
  set b2 := b1.SetType exCollab dynamicBody with hb2
  have h3t : (b2.SetFixedRotation true).m_type = dynamicBody := by
    rw [SetFixedRotation_type]; exact h2.1
  have h3l : (b2.SetFixedRotation true).m_world.IsLocked = false := by
    rw [SetFixedRotation_world]; exact h2l
  have h3J : totalInertia (b2.SetFixedRotation true).m_fixtureList = 9 := by
    rw [SetFixedRotation_fixtureList, h2fl]; exact hJ
  have hth3 := fixedRotation_zero_inertia exCollab exSpinningDef exWorld
    (exInertiaOps ++ [Op.SetFixedRotation true]) b2 true (by decide)
  have hth4 := fixedRotation_zero_inertia exCollab exSpinningDef exWorld
    (exInertiaOps ++ [Op.SetFixedRotation true, Op.SetMassData exMassData]) b2 true
    (by decide)
  have h3 := hth3.2 (by rw [h2f]; decide)
  have h4t : ((b2.SetFixedRotation true).SetMassData exMassData).m_type = dynamicBody := by
    rw [SetMassData_type]; exact h3t
  have h4f : ((b2.SetFixedRotation true).SetMassData exMassData).m_flags.fixedRotationFlag =
      true := by
    rw [SetMassData_flags]; exact h3.1
  have h4m : ((b2.SetFixedRotation true).SetMassData exMassData).m_mass = 4 := by
    rw [SetMassData_mass _ _ h3l h3t]; norm_num [exMassData]
  have h2i : b2.m_invI ≠ 0 := by
    rw [h2.2.2.2.2, hrinv]; norm_num
  exact ⟨by decide, ⟨h2.1, h2f, h2a, h2.2.2.2.1.trans hrI, h2i⟩,
    ⟨h3t, h3J, h3.1, h3.2, hth3.1 h3.1⟩,
    ⟨h4t, h4m, h4f, by norm_num [exMassData], hth4.1 h4f⟩⟩

/-- C15: for every body in an unlocked world whose fixtureCount is the length
of its fixture list: CreateFixture returns a new fixture (at the allocated
address, with the density of the definition), puts it at the head of the list
and increases fixtureCount by one; DestroyFixture(f), for a fixture f of the
list (list nodes at distinct addresses, one contact per contact address),
removes exactly f and keeps the others in order, decreases fixtureCount by
one and leaves in the body's contact list exactly the contacts whose fixtureA
and fixtureB are not f; after both, fixtureCount is the length of the list. -/
theorem fixture_bookkeeping (co : Collab) (b : Body) (d : FixtureDef) (memory : Nat)
    (fixture : Fixture) (hl : b.m_world.IsLocked = false)
    (hc : b.m_fixtureCount = b.m_fixtureList.length) :
    (∃ f, (b.CreateFixture co d memory).2 = some f ∧ f.addr = memory ∧
      f.m_density = d.density ∧
      (b.CreateFixture co d memory).1.m_fixtureList = f :: b.m_fixtureList ∧
      (b.CreateFixture co d memory).1.m_fixtureCount = b.m_fixtureCount + 1 ∧
      (b.CreateFixture co d memory).1.m_fixtureCount =
        (b.CreateFixture co d memory).1.m_fixtureList.length) ∧
    (fixture ∈ b.m_fixtureList → (b.m_fixtureList.map Fixture.addr).Nodup →
      (∀ e1 ∈ b.m_contactList, ∀ e2 ∈ b.m_contactList,
        e1.contact.addr = e2.contact.addr → e1.contact = e2.contact) →
      (∃ l1 l2, b.m_fixtureList = l1 ++ fixture :: l2 ∧
        (b.DestroyFixture co fixture).m_fixtureList = l1 ++ l2) ∧
      (b.DestroyFixture co fixture).m_fixtureCount = b.m_fixtureCount - 1 ∧
      (b.DestroyFixture co fixture).m_fixtureCount =
        (b.DestroyFixture co fixture).m_fixtureList.length ∧
      (b.DestroyFixture co fixture).m_contactList =
        b.m_contactList.filter (fun e => !(e.contact.refersTo fixture.addr))) := by
  constructor
  · obtain ⟨f, h1, h2, h3, h4, h5⟩ := CreateFixture_lists co b d memory hl
    refine ⟨f, h1, h2, h3, h4, h5, ?_⟩
    rw [h5, h4, hc]
    simp
  · intro hmem hnd hw
    obtain ⟨h1, h2, h3⟩ := DestroyFixture_lists co b fixture hl
    obtain ⟨l1, l2, hs1, hs2⟩ := unlinkFixture_split fixture b.m_fixtureList hmem hnd
    refine ⟨⟨l1, l2, hs1, by rw [h1, hs2]⟩, h2, ?_, ?_⟩
    · rw [h2, h1, hs2, hc, hs1]
      simp only [List.length_append, List.length_cons, Nat.cast_add, Nat.cast_one]
      ring
    · rw [h3]
      exact destroyFixtureContacts_exact fixture.addr b hw

theorem fixture_bookkeeping_witness :
    (∃ f, (exContactBody.CreateFixture exCollab { shape := exShape, density := 5 } 400).2 =
        some f ∧ f.addr = 400 ∧ f.m_density = 5 ∧
      (exContactBody.CreateFixture exCollab { shape := exShape, density := 5 }
        400).1.m_fixtureList = f :: exContactBody.m_fixtureList ∧
      (exContactBody.CreateFixture exCollab { shape := exShape, density := 5 }
        400).1.m_fixtureCount = 4) ∧
    (exContactBody.DestroyFixture exCollab exFixture).m_fixtureCount = 2 ∧
    (exContactBody.DestroyFixture exCollab exFixture).m_fixtureList.length = 2 ∧
    (exContactBody.DestroyFixture exCollab exFixture).m_contactList =
      [ { other := 8, contact := { addr := 1001, m_fixtureA := 901, m_fixtureB := 300 } } ] := by
  have h := fixture_bookkeeping exCollab exContactBody { shape := exShape, density := 5 } 400
    exFixture (by decide) (by decide)
  obtain ⟨f, h1, h2, h3, h4, h5, _⟩ := h.1
  have hd := h.2 (List.mem_cons_self _ _) (by decide) (by decide)
  obtain ⟨_, d2, d3, d4⟩ := hd
  refine ⟨⟨f, h1, h2, h3, h4, by rw [h5]; rfl⟩, by rw [d2]; rfl, ?_, by rw [d4]; rfl⟩
  have : ((exContactBody.DestroyFixture exCollab exFixture).m_fixtureList.length : Int) = 2 := by
    rw [← d3, d2]; rfl
  exact_mod_cast this

/-- C19: for every body and every two fixture lists that are permutations of
each other, ResetMassData (over exact arithmetic) computes the same mass,
invMass, I, invI, localCenter, world center and linear velocity. -/
theorem fixture_order_irrelevant (b : Body) (l1 l2 : List Fixture) (h : l1.Perm l2) :
    (Body.ResetMassData { b with m_fixtureList := l1 }).m_mass =
      (Body.ResetMassData { b with m_fixtureList := l2 }).m_mass ∧
    (Body.ResetMassData { b with m_fixtureList := l1 }).m_invMass =
      (Body.ResetMassData { b with m_fixtureList := l2 }).m_invMass ∧
    (Body.ResetMassData { b with m_fixtureList := l1 }).m_I =
      (Body.ResetMassData { b with m_fixtureList := l2 }).m_I ∧
    (Body.ResetMassData { b with m_fixtureList := l1 }).m_invI =
      (Body.ResetMassData { b with m_fixtureList := l2 }).m_invI ∧
    (Body.ResetMassData { b with m_fixtureList := l1 }).m_sweep.localCenter =
      (Body.ResetMassData { b with m_fixtureList := l2 }).m_sweep.localCenter ∧
    (Body.ResetMassData { b with m_fixtureList := l1 }).m_sweep.c =
      (Body.ResetMassData { b with m_fixtureList := l2 }).m_sweep.c ∧
    (Body.ResetMassData { b with m_fixtureList := l1 }).m_linearVelocity =
      (Body.ResetMassData { b with m_fixtureList := l2 }).m_linearVelocity := by
  rw [ResetMassData_perm b l1 l2 h]
  exact ⟨rfl, rfl, rfl, rfl, rfl, rfl, rfl⟩

theorem fixture_order_irrelevant_witness :
    (Body.ResetMassData
        { exDynamicBody with m_fixtureList := exDynamicBody.m_fixtureList.reverse }).m_mass =
      (Body.ResetMassData
        { exDynamicBody with m_fixtureList := exDynamicBody.m_fixtureList }).m_mass ∧
    (Body.ResetMassData
        { exDynamicBody with m_fixtureList := exDynamicBody.m_fixtureList.reverse }).m_I =
      (Body.ResetMassData
        { exDynamicBody with m_fixtureList := exDynamicBody.m_fixtureList }).m_I :=
  ⟨(fixture_order_irrelevant exDynamicBody exDynamicBody.m_fixtureList.reverse
      exDynamicBody.m_fixtureList (List.reverse_perm _)).1,
    (fixture_order_irrelevant exDynamicBody exDynamicBody.m_fixtureList.reverse
      exDynamicBody.m_fixtureList (List.reverse_perm _)).2.2.1⟩

/-- C16 fails on the closing edge of a loop: the input
(0,0), (1,0), (1,1), (0,0) passes every assertion of CreateLoop (which
compares vertices[i-1] with vertices[i] for 1 <= i < count and never the last
vertex with the first), the resulting shape has 4 child edges, and child edge
3 runs from (0,0) to (0,0): squared distance 0, not greater than
linearSlop * linearSlop.  The assertions Clone runs on this shape (those of
CreateChain on the stored vertices) fail. -/
theorem CreateLoop_closing_edge_unchecked :
    (ChainShape.ctor exPolygonRadius).CreateLoop_assert exLinearSlop exClosedTriangle ∧
    ((ChainShape.ctor exPolygonRadius).CreateLoop exClosedTriangle).GetChildCount = 4 ∧
    ((ChainShape.ctor exPolygonRadius).CreateLoop exClosedTriangle).GetChildEdge_assert 3 ∧
    (((ChainShape.ctor exPolygonRadius).CreateLoop exClosedTriangle).GetChildEdge
      exEdge 3).m_vertex1 = ⟨0, 0⟩ ∧
    (((ChainShape.ctor exPolygonRadius).CreateLoop exClosedTriangle).GetChildEdge
      exEdge 3).m_vertex2 = ⟨0, 0⟩ ∧
    ¬ (DistanceSquared
        (((ChainShape.ctor exPolygonRadius).CreateLoop exClosedTriangle).GetChildEdge
          exEdge 3).m_vertex1
        (((ChainShape.ctor exPolygonRadius).CreateLoop exClosedTriangle).GetChildEdge
          exEdge 3).m_vertex2 > exLinearSlop * exLinearSlop) ∧
    ¬ ((ChainShape.ctor exPolygonRadius).CreateLoop exClosedTriangle).Clone_assert
        exLinearSlop exPolygonRadius := by
  have hv1 : (((ChainShape.ctor exPolygonRadius).CreateLoop exClosedTriangle).GetChildEdge
      exEdge 3).m_vertex1 = ⟨0, 0⟩ := by decide
  have hv2 : (((ChainShape.ctor exPolygonRadius).CreateLoop exClosedTriangle).GetChildEdge
      exEdge 3).m_vertex2 = ⟨0, 0⟩ := by decide
  refine ⟨?_, by decide, ⟨by decide, by decide⟩, hv1, hv2, ?_, ?_⟩
  · refine ⟨⟨rfl, rfl⟩, by decide, ?_⟩
    norm_num [spacingAsserts, exClosedTriangle, DistanceSquared, dot, exLinearSlop]
  · rw [hv1, hv2]
    norm_num [DistanceSquared, dot, exLinearSlop]
  · intro h
    have h2 := h.2.2
    have hvs : ((ChainShape.ctor exPolygonRadius).CreateLoop exClosedTriangle).vertices =
        [⟨0, 0⟩, ⟨1, 0⟩, ⟨1, 1⟩, ⟨0, 0⟩, ⟨0, 0⟩] := by decide
    rw [hvs] at h2
    norm_num [spacingAsserts, DistanceSquared, dot, exLinearSlop] at h2

/-- C20: for every array of n >= 3 vertices given to CreateLoop,
GetChildCount() = n, and for every index i < n, GetChildEdge(i) has
vertex1 = v[i], vertex2 = v[(i+1) mod n], ghost vertex0 = v[(i-1) mod n]
(written (i + n - 1) mod n over the naturals), ghost vertex3 = v[(i+2) mod n],
and hasVertex0 and hasVertex3 both true. -/
theorem loop_child_edges_wrap (s : ChainShape) (edge : EdgeShape) (vertices : List Vec2)
    (i : Nat) (hn : 3 ≤ vertices.length) (hi : i < vertices.length) :
    (s.CreateLoop vertices).GetChildCount = (vertices.length : Int) ∧
    vertices[i]? = some ((s.CreateLoop vertices).GetChildEdge edge i).m_vertex1 ∧
    vertices[(i + 1) % vertices.length]? =
      some ((s.CreateLoop vertices).GetChildEdge edge i).m_vertex2 ∧
    vertices[(i + vertices.length - 1) % vertices.length]? =
      some ((s.CreateLoop vertices).GetChildEdge edge i).m_vertex0 ∧
    vertices[(i + 2) % vertices.length]? =
      some ((s.CreateLoop vertices).GetChildEdge edge i).m_vertex3 ∧
    ((s.CreateLoop vertices).GetChildEdge edge i).m_hasVertex0 = true ∧
    ((s.CreateLoop vertices).GetChildEdge edge i).m_hasVertex3 = true :=
  CreateLoop_GetChildEdge s edge vertices i hn hi

theorem loop_child_edges_wrap_witness :
    ((ChainShape.ctor exPolygonRadius).CreateLoop exSquare).GetChildCount = 4 ∧
    (((ChainShape.ctor exPolygonRadius).CreateLoop exSquare).GetChildEdge exEdge
      (3 : Nat)).m_vertex1 = ⟨0, 1⟩ ∧
    (((ChainShape.ctor exPolygonRadius).CreateLoop exSquare).GetChildEdge exEdge
      (3 : Nat)).m_vertex2 = ⟨0, 0⟩ ∧
    (((ChainShape.ctor exPolygonRadius).CreateLoop exSquare).GetChildEdge exEdge
      (3 : Nat)).m_vertex0 = ⟨1, 1⟩ ∧
    (((ChainShape.ctor exPolygonRadius).CreateLoop exSquare).GetChildEdge exEdge
      (3 : Nat)).m_vertex3 = ⟨1, 0⟩ ∧
    (((ChainShape.ctor exPolygonRadius).CreateLoop exSquare).GetChildEdge exEdge
      (3 : Nat)).m_hasVertex0 = true ∧
    (((ChainShape.ctor exPolygonRadius).CreateLoop exSquare).GetChildEdge exEdge
      (3 : Nat)).m_hasVertex3 = true := by
  have h := loop_child_edges_wrap (ChainShape.ctor exPolygonRadius) exEdge exSquare 3
    (by decide) (by decide)
  obtain ⟨h0, h1, h2, h3, h4, h5, h6⟩ := h
  have e1 : exSquare[3]? = some ⟨0, 1⟩ := rfl
  have e2 : exSquare[(3 + 1) % exSquare.length]? = some ⟨0, 0⟩ := rfl
  have e3 : exSquare[(3 + exSquare.length - 1) % exSquare.length]? = some ⟨1, 1⟩ := rfl
  have e4 : exSquare[(3 + 2) % exSquare.length]? = some ⟨1, 0⟩ := rfl
  rw [e1] at h1
  rw [e2] at h2
  rw [e3] at h3
  rw [e4] at h4
  exact ⟨h0, (Option.some.inj h1).symm, (Option.some.inj h2).symm, (Option.some.inj h3).symm,
    (Option.some.inj h4).symm, h5, h6⟩

/-- C21: for every chain shape built by CreateChain (possibly followed by
SetPrevVertex / SetNextVertex) or by CreateLoop, the assertions of Clone hold
whenever every two consecutive stored vertices are farther apart than
linearSlop, and the clone has the same vertex count, vertex sequence,
prevVertex, nextVertex, hasPrevVertex and hasNextVertex, so GetChildCount and,
for every index, the vertices and ghost flags of GetChildEdge are the same on
the clone as on the original. -/
theorem Clone_preserves_chain (linearSlop polygonRadius : ℚ) (s : ChainShape)
    (edge : EdgeShape) (index : Int) (h : s.Built) :
    (spacedApart linearSlop s.vertices → s.Clone_assert linearSlop polygonRadius) ∧
    (s.Clone polygonRadius).m_count = s.m_count ∧
    (s.Clone polygonRadius).m_vertices = s.m_vertices ∧
    (s.Clone polygonRadius).m_prevVertex = s.m_prevVertex ∧
    (s.Clone polygonRadius).m_nextVertex = s.m_nextVertex ∧
    (s.Clone polygonRadius).m_hasPrevVertex = s.m_hasPrevVertex ∧
    (s.Clone polygonRadius).m_hasNextVertex = s.m_hasNextVertex ∧
    (s.Clone polygonRadius).GetChildCount = s.GetChildCount ∧
    ((s.Clone polygonRadius).GetChildEdge edge index).m_vertex1 =
      (s.GetChildEdge edge index).m_vertex1 ∧
    ((s.Clone polygonRadius).GetChildEdge edge index).m_vertex2 =
      (s.GetChildEdge edge index).m_vertex2 ∧
    ((s.Clone polygonRadius).GetChildEdge edge index).m_vertex0 =
      (s.GetChildEdge edge index).m_vertex0 ∧
    ((s.Clone polygonRadius).GetChildEdge edge index).m_vertex3 =
      (s.GetChildEdge edge index).m_vertex3 ∧
    ((s.Clone polygonRadius).GetChildEdge edge index).m_hasVertex0 =
      (s.GetChildEdge edge index).m_hasVertex0 ∧
    ((s.Clone polygonRadius).GetChildEdge edge index).m_hasVertex3 =
      (s.GetChildEdge edge index).m_hasVertex3 := by
  have hc := Clone_eq polygonRadius s h
  refine ⟨Clone_assert_of_spaced linearSlop polygonRadius s h, ?_⟩
  rw [hc, GetChildEdge_radius]
  exact ⟨rfl, rfl, rfl, rfl, rfl, rfl, rfl, rfl, rfl, rfl, rfl, rfl, rfl⟩

theorem Clone_preserves_chain_witness :
    ((ChainShape.ctor exPolygonRadius).CreateLoop exSquare).Clone_assert exLinearSlop
      exPolygonRadius ∧
    (((ChainShape.ctor exPolygonRadius).CreateLoop exSquare).Clone exPolygonRadius).m_vertices =
      some [⟨0, 0⟩, ⟨1, 0⟩, ⟨1, 1⟩, ⟨0, 1⟩, ⟨0, 0⟩] ∧
    (((ChainShape.ctor exPolygonRadius).CreateLoop exSquare).Clone exPolygonRadius).m_count = 5 ∧
    ((((ChainShape.ctor exPolygonRadius).CreateChain exSquare).SetPrevVertex ⟨0, -1⟩).Clone
      exPolygonRadius).m_prevVertex = ⟨0, -1⟩ ∧
    ((((ChainShape.ctor exPolygonRadius).CreateChain exSquare).SetPrevVertex ⟨0, -1⟩).Clone
      exPolygonRadius).m_hasPrevVertex = true := by
  have hb : ((ChainShape.ctor exPolygonRadius).CreateLoop exSquare).Built :=
    ChainShape.Built.loop _ _ (by decide)
  have hb2 : (((ChainShape.ctor exPolygonRadius).CreateChain exSquare).SetPrevVertex
      ⟨0, -1⟩).Built :=
    ChainShape.Built.setPrev _ _ (ChainShape.Built.chain _ _ (by decide))
  have hvs : ((ChainShape.ctor exPolygonRadius).CreateLoop exSquare).vertices =
      [⟨0, 0⟩, ⟨1, 0⟩, ⟨1, 1⟩, ⟨0, 1⟩, ⟨0, 0⟩] := by decide
  have hsp : spacedApart exLinearSlop
      ((ChainShape.ctor exPolygonRadius).CreateLoop exSquare).vertices := by
    rw [hvs]
    intro k v w hv hw
    refine spacingAsserts_getElem? exLinearSlop _ ?_ k v w hv hw
    norm_num [spacingAsserts, DistanceSquared, dot, exLinearSlop]
  have h := Clone_preserves_chain exLinearSlop exPolygonRadius _ exEdge 0 hb
  have h2 := Clone_preserves_chain exLinearSlop exPolygonRadius _ exEdge 0 hb2
  exact ⟨h.1 hsp, h.2.2.1.trans (by decide), h.2.1.trans (by decide),
    h2.2.2.2.1.trans (by decide), h2.2.2.2.2.2.1.trans (by decide)⟩

end Break
